import Mathlib

/-!
CoreChat: presence registry and real-time delivery.

A shallow embedding of `backend/src/lib/socket.js` (the `userSocketMap`
registry, `getReceiverSocketId`, the `connection` and `disconnect` handlers)
of `sendMessage` in `backend/src/controllers/message.controller.js`, and of
`protectRoute` in `backend/src/middleware/auth.middleware.js`.

`userSocketMap` is the plain JavaScript object literal written in the source,
so it is modelled as an ordinary object whose prototype is `Object.prototype`:
own string-keyed properties in creation order, property reads that fall
through to the prototype, the inherited `__proto__` accessor, array-index keys
listed first by `Object.keys`, and property keys obtained with
`ToPropertyKey` (an absent `userId` is the key `"undefined"`).
`Object.prototype` is assumed to be in its initial state. Logging is not
modelled, and socket.io is taken not to throw into the handlers.
-/

namespace CoreChat

/-! ## JavaScript values and objects -/

/-- The values a read of `userSocketMap[key]` can produce: `undefined`, a
string stored under an own property, or the member of `Object.prototype`
found under an inherited name (a function, or `Object.prototype` itself for
`__proto__`). -/
inductive JSVal where
  | undefined
  | str (s : String)
  | inherited (name : String)
  deriving DecidableEq, Repr

/-- JavaScript `ToBoolean` on the values above: `undefined` and the empty
string are falsy, objects and functions are truthy. -/
def JSVal.truthy : JSVal → Bool
  | .undefined => false
  | .str s => s != ""
  | .inherited _ => true

/-- The property names of `Object.prototype`. -/
def objectPrototypeNames : List String :=
  ["constructor", "__defineGetter__", "__defineSetter__", "hasOwnProperty",
   "__lookupGetter__", "__lookupSetter__", "isPrototypeOf",
   "propertyIsEnumerable", "toString", "valueOf", "__proto__",
   "toLocaleString"]

/-- An ordinary object with string values: its own enumerable properties in
creation order. A well-formed object has no repeated key (`JSObject.WF`). -/
structure JSObject where
  props : List (String × String)
  deriving DecidableEq, Repr

/-- The object literal `{}`. -/
def JSObject.empty : JSObject := ⟨[]⟩

/-- Own property keys in creation order. -/
def JSObject.ownKeys (o : JSObject) : List String := o.props.map Prod.fst

/-- Representation invariant: property keys are unique. -/
def JSObject.WF (o : JSObject) : Prop := o.ownKeys.Nodup

instance (o : JSObject) : Decidable o.WF := by
  unfold JSObject.WF; infer_instance

/-- Value of the own property `k`, if there is one. -/
def lookupOwn (k : String) : List (String × String) → Option String
  | [] => none
  | (k1, v1) :: t => if k1 = k then some v1 else lookupOwn k t

/-- `HasOwnProperty`. -/
def JSObject.hasOwn (o : JSObject) (k : String) : Bool := (lookupOwn k o.props).isSome

/-- `CreateDataProperty` / update of an own data property: an existing
property keeps its position, a new one is appended. -/
def setOwn (k v : String) : List (String × String) → List (String × String)
  | [] => [(k, v)]
  | (k1, v1) :: t => if k1 = k then (k, v) :: t else (k1, v1) :: setOwn k v t

/-- The read `o[k]`: the own property if present, otherwise the lookup
continues in `Object.prototype`. -/
def JSObject.get (o : JSObject) (k : String) : JSVal :=
  match lookupOwn k o.props with
  | some v => .str v
  | none => if k ∈ objectPrototypeNames then .inherited k else .undefined

/-- The assignment `o[k] = v` of a string `v`. Every data property of
`Object.prototype` is writable, so the assignment creates or updates an own
property; the one accessor, `__proto__`, has a setter that ignores values that
are neither objects nor `null`, so unless `__proto__` is already an own
property the assignment changes nothing. -/
def JSObject.set (o : JSObject) (k v : String) : JSObject :=
  if k = "__proto__" ∧ o.hasOwn k = false then o else ⟨setOwn k v o.props⟩

/-- The statement `delete o[k]`: removes the own property `k` if there is
one; never throws on an ordinary object. -/
def JSObject.delete (o : JSObject) (k : String) : JSObject :=
  ⟨o.props.filter (fun p => p.1 != k)⟩

/-- Numeric value of a non-empty string of decimal digits. -/
def digitsValue (cs : List Char) : Option Nat :=
  if cs ≠ [] ∧ cs.all Char.isDigit then
    some (cs.foldl (fun acc c => acc * 10 + (c.toNat - 48)) 0)
  else none

/-- The array index denoted by a property key: a canonical numeric string
whose value is below `2^32 - 1`. -/
def arrayIndex? (k : String) : Option Nat :=
  match digitsValue k.data with
  | some n => if toString n = k ∧ n < 4294967295 then some n else none
  | none => none

/-- Whether the key is an array index. -/
def isArrayIndex (k : String) : Bool := (arrayIndex? k).isSome

/-- Numeric rank used to order array-index keys. -/
def indexRank (k : String) : Nat := (arrayIndex? k).getD 0

/-- Insertion into a list of array-index keys ordered by ascending value. -/
def insertIndexKey (k : String) : List String → List String
  | [] => [k]
  | h :: t => if indexRank k ≤ indexRank h then k :: h :: t else h :: insertIndexKey k t

/-- Array-index keys in ascending numeric order. -/
def sortIndexKeys : List String → List String
  | [] => []
  | h :: t => insertIndexKey h (sortIndexKeys t)

/-- `Object.keys(o)` (`OrdinaryOwnPropertyKeys`): array-index keys in
ascending numeric order, then the other string keys in creation order. -/
def JSObject.keys (o : JSObject) : List String :=
  sortIndexKeys (o.ownKeys.filter isArrayIndex) ++
    o.ownKeys.filter (fun k => !isArrayIndex k)

/-- `ToPropertyKey` of `socket.handshake.query.userId`: a missing parameter
is `undefined`, whose property key is the string `"undefined"`. (A repeated
parameter arrives as an array, which is truthy and whose property key is the
comma-joined string, so it behaves as that string.) -/
def toPropertyKey : Option String → String
  | none => "undefined"
  | some s => s

/-- `ToBoolean` of `socket.handshake.query.userId`. -/
def truthy : Option String → Bool
  | none => false
  | some s => s != ""

/-! ## `lib/socket.js` -/

/-- A message document built by `new Message(...)` in `sendMessage`. -/
structure Message where
  senderId : String
  receiverId : String
  text : Option String
  image : Option String
  deriving DecidableEq, Repr

/-- What the server hands to socket.io: `io.emit(event, roster)` reaches
every connected client, `io.to(room).emit(event, message)` the sockets of one
room (each socket is alone in the room named by its own id). -/
inductive Emitted where
  | toAll (event : String) (roster : List String)
  | toRoom (room : JSVal) (event : String) (payload : Message)
  deriving DecidableEq, Repr

/-- A connected socket: its id and the `userId` of its handshake query. -/
structure Socket where
  id : String
  userId : Option String
  deriving DecidableEq, Repr

/-- The function `getReceiverSocketId(userId)` reads `userSocketMap[userId]`. -/
def getReceiverSocketId (userSocketMap : JSObject) (userId : String) : JSVal :=
  userSocketMap.get userId

/-- The body of `io.on("connection", ...)` up to the registration of the
disconnect listener: store the socket id under a truthy `userId`, then
`io.emit("getOnlineUsers", Object.keys(userSocketMap))`. Returns the registry
and the events emitted. -/
def onConnection (userSocketMap : JSObject) (socket : Socket) : JSObject × List Emitted :=
  let userId := socket.userId
  let userSocketMap :=
    if truthy userId then userSocketMap.set (toPropertyKey userId) socket.id
    else userSocketMap
  (userSocketMap, [Emitted.toAll "getOnlineUsers" userSocketMap.keys])

/-- The listener of `socket.on("disconnect", ...)`: `delete
userSocketMap[userId]` with the `userId` captured at connection time, then
`io.emit("getOnlineUsers", Object.keys(userSocketMap))`. -/
def onDisconnect (userSocketMap : JSObject) (socket : Socket) : JSObject × List Emitted :=
  let userId := socket.userId
  let userSocketMap := userSocketMap.delete (toPropertyKey userId)
  (userSocketMap, [Emitted.toAll "getOnlineUsers" userSocketMap.keys])

/-! ## `controllers/message.controller.js` -/

/-- The parts of the request that `sendMessage` reads: `req.body.text`,
`req.body.image`, `req.params.id` and `req.user._id`. -/
structure Request where
  text : Option String
  image : Option String
  id : String
  userId : String
  deriving DecidableEq, Repr

/-- The awaited external calls of `sendMessage`, each either resolving or
throwing: `cloudinary.uploader.upload(image)` resolves to the `secure_url`,
`newMessage.save()` resolves once the document is stored. The `Message` model
and its schema are not part of the sources, so `save` is a parameter. -/
structure Collaborators where
  upload : String → Except String String
  save : Message → Except String Unit

/-- The JSON body of the HTTP response. -/
inductive Body where
  | message (m : Message)
  | error (msg : String)
  deriving DecidableEq, Repr

/-- The result of `res.status(code).json(body)`. -/
structure Response where
  status : Nat
  body : Body
  deriving DecidableEq, Repr

/-- What one run of `sendMessage` leaves behind: the registry, the events
handed to socket.io and the HTTP response. -/
structure SendResult where
  userSocketMap : JSObject
  emitted : List Emitted
  response : Response
  deriving DecidableEq, Repr

/-- The `imageUrl` of `sendMessage`: when `image` is truthy the image is
uploaded and `imageUrl` is the `secure_url` of the response (or the upload
throws); otherwise `imageUrl` stays `undefined`. -/
def uploadImage (ext : Collaborators) : Option String → Except String (Option String)
  | some image =>
    if truthy (some image) then
      match ext.upload image with
      | .ok secureUrl => .ok (some secureUrl)
      | .error e => .error e
    else .ok none
  | none => .ok none

/-- The first part of the `try` block of `sendMessage`: upload the image if
there is one, build the document, `await newMessage.save()`. Yields the saved
document, or the exception that was thrown. -/
def persist (ext : Collaborators) (req : Request) : Except String Message :=
  match uploadImage ext req.image with
  | .error e => .error e
  | .ok imageUrl =>
    match ext.save
      { senderId := req.userId, receiverId := req.id, text := req.text, image := imageUrl } with
    | .ok _ =>
      .ok { senderId := req.userId, receiverId := req.id, text := req.text, image := imageUrl }
    | .error e => .error e

/-- The controller `sendMessage`: after a successful save it reads
`getReceiverSocketId(receiverId)`, emits `newMessage` to that room when the
value is truthy and answers 201 with the document; any exception is caught and
answered with 500. -/
def sendMessage (ext : Collaborators) (userSocketMap : JSObject) (req : Request) : SendResult :=
  match persist ext req with
  | .ok newMessage =>
    let receiverSocketId := getReceiverSocketId userSocketMap req.id
    let emitted :=
      if receiverSocketId.truthy then [Emitted.toRoom receiverSocketId "newMessage" newMessage]
      else []
    { userSocketMap := userSocketMap, emitted := emitted,
      response := { status := 201, body := .message newMessage } }
  | .error _ =>
    { userSocketMap := userSocketMap, emitted := [],
      response := { status := 500, body := .error "Internal server error" } }

/-! ## Runs of the server -/

/-- The two statements that change `userSocketMap`:
`userSocketMap[userId] = socket.id` and `delete userSocketMap[userId]`. -/
inductive RegistryOp where
  | register (userId socketId : String)
  | deregister (userId : String)
  deriving DecidableEq, Repr

/-- Effect of one registry statement. -/
def RegistryOp.apply (userSocketMap : JSObject) : RegistryOp → JSObject
  | .register userId socketId => userSocketMap.set userId socketId
  | .deregister userId => userSocketMap.delete userId

/-- The registry after a sequence of registry statements. -/
def applyOps (userSocketMap : JSObject) (ops : List RegistryOp) : JSObject :=
  ops.foldl RegistryOp.apply userSocketMap

/-- What the server reacts to: a socket connecting, a socket disconnecting,
a `sendMessage` request. The awaited calls of `sendMessage` do not touch the
registry and everything after `await newMessage.save()` runs without
interruption, so a `send` event stands for the moment the save settles. -/
inductive ServerEvent where
  | connection (socket : Socket)
  | disconnect (socket : Socket)
  | send (ext : Collaborators) (req : Request)

/-- The handler run for one event: the registry afterwards and the events
emitted. -/
def step (userSocketMap : JSObject) : ServerEvent → JSObject × List Emitted
  | .connection socket => onConnection userSocketMap socket
  | .disconnect socket => onDisconnect userSocketMap socket
  | .send ext req =>
    let r := sendMessage ext userSocketMap req
    (r.userSocketMap, r.emitted)

/-- The registry after the handlers of a sequence of events have run in
order (the event loop runs each handler to completion). -/
def runServer (userSocketMap : JSObject) (events : List ServerEvent) : JSObject :=
  events.foldl (fun m e => (step m e).1) userSocketMap

/-- The registry stores socket ids, and socket.io never issues an empty
socket id: every stored value is a non-empty string. -/
def JSObject.HoldsSocketIds (m : JSObject) : Prop := ∀ p ∈ m.props, p.2 ≠ ""

instance (m : JSObject) : Decidable m.HoldsSocketIds := by
  unfold JSObject.HoldsSocketIds; infer_instance

/-- An event whose socket, if it is a connection, has a non-empty id, as
every socket created by socket.io has. -/
def ServerEvent.HasSocketId : ServerEvent → Prop
  | .connection socket => socket.id ≠ ""
  | .disconnect _ => True
  | .send _ _ => True

/-- Everything emitted while the handlers of a sequence of events run in
order. -/
def emittedDuring (userSocketMap : JSObject) : List ServerEvent → List Emitted
  | [] => []
  | e :: rest => (step userSocketMap e).2 ++ emittedDuring (step userSocketMap e).1 rest

/-- Whether an emitted event is a `getOnlineUsers` broadcast. -/
def Emitted.isRoster : Emitted → Bool
  | .toAll event _ => event == "getOnlineUsers"
  | .toRoom _ _ _ => false

/-- The sockets whose connection handler ran, in the order of the events. -/
def connections : List ServerEvent → List Socket
  | [] => []
  | .connection socket :: rest => socket :: connections rest
  | _ :: rest => connections rest

/-- The sockets whose disconnect listener ran, in the order of the events. -/
def disconnections : List ServerEvent → List Socket
  | [] => []
  | .disconnect socket :: rest => socket :: disconnections rest
  | _ :: rest => disconnections rest

/-- A history read newest event first is valid when every connecting socket
has an id that no earlier connection had, and every disconnecting socket
connected earlier and has not disconnected before. -/
def validNewestFirst : List ServerEvent → Bool
  | [] => true
  | .connection socket :: older =>
    decide (socket.id ∉ (connections older).map Socket.id) && validNewestFirst older
  | .disconnect socket :: older =>
    decide (socket ∈ connections older) && decide (socket ∉ disconnections older) &&
      validNewestFirst older
  | .send _ _ :: older => validNewestFirst older

/-- A history of events, oldest first, in which socket ids are unique and
each socket disconnects at most once, after its own connection. -/
def validHistory (events : List ServerEvent) : Bool := validNewestFirst events.reverse

/-! ## Counting registry statements (the wording of the specification) -/

/-- Number of `register` statements for the user id `u` in a sequence. -/
def registerCount (u : String) : List RegistryOp → Nat
  | [] => 0
  | .register k _ :: rest => (if k = u then 1 else 0) + registerCount u rest
  | .deregister _ :: rest => registerCount u rest

/-- Number of `deregister` statements for the user id `u` in a sequence. -/
def deregisterCount (u : String) : List RegistryOp → Nat
  | [] => 0
  | .register _ _ :: rest => deregisterCount u rest
  | .deregister k :: rest => (if k = u then 1 else 0) + deregisterCount u rest

/-- The statements of a sequence that concern `u` strictly alternate, the
next one expected being a `register` when `expectRegister` holds and a
`deregister` otherwise. -/
def alternatesFor (u : String) : Bool → List RegistryOp → Bool
  | _, [] => true
  | expectRegister, .register k _ :: rest =>
    if k = u then expectRegister && alternatesFor u false rest
    else alternatesFor u expectRegister rest
  | expectRegister, .deregister k :: rest =>
    if k = u then !expectRegister && alternatesFor u true rest
    else alternatesFor u expectRegister rest

/-! ## `middleware/auth.middleware.js` -/

/-- What `jwt.verify` returns for a token that verifies: the decoded
payload, of which the middleware uses its truthiness and `decoded.userId`. -/
structure Decoded where
  truthy : Bool
  userId : Option String
  deriving DecidableEq, Repr

/-- A user document as returned by `User.findById(...).select("-password")`. -/
structure User where
  id : String
  deriving DecidableEq, Repr

/-- The calls `protectRoute` makes outside the repository: `jwt.verify(token,
secret)` returns the decoded payload or throws (malformed, wrongly signed or
expired token); `User.findById(id)` resolves to a document or `null`, or
throws. -/
structure AuthCollaborators where
  verify : String → Except String Decoded
  findById : Option String → Except String (Option User)

/-- The response `res.status(code).json(...)` of the middleware; its body
has the one field `message`. -/
structure AuthResponse where
  status : Nat
  message : String
  deriving DecidableEq, Repr

/-- What one run of `protectRoute` leaves behind: the response it sent, if
any, the `req.user` it attached, if any, and whether it called `next()`. -/
structure AuthResult where
  response : Option AuthResponse
  user : Option User
  nextCalled : Bool
  deriving DecidableEq, Repr

/-- The middleware `protectRoute`, given `req.cookies.jwt`. -/
def protectRoute (ext : AuthCollaborators) (jwt : Option String) : AuthResult :=
  match jwt with
  | none => ⟨some ⟨401, "Unauthorized - No Token Provided"⟩, none, false⟩
  | some token =>
    if truthy (some token) = false then
      ⟨some ⟨401, "Unauthorized - No Token Provided"⟩, none, false⟩
    else
      match ext.verify token with
      | .error _ => ⟨some ⟨500, "Internal server error"⟩, none, false⟩
      | .ok decoded =>
        if decoded.truthy = false then
          ⟨some ⟨401, "Unauthorized - Invalid Token"⟩, none, false⟩
        else
          match ext.findById decoded.userId with
          | .error _ => ⟨some ⟨500, "Internal server error"⟩, none, false⟩
          | .ok none => ⟨some ⟨404, "User not found"⟩, none, false⟩
          | .ok (some user) => ⟨none, some user, true⟩

/-! ## Own properties: reading after writing and deleting -/

theorem lookupOwn_isSome_iff (k : String) (l : List (String × String)) :
    (lookupOwn k l).isSome = true ↔ k ∈ l.map Prod.fst := by
  induction l with
  | nil => simp [lookupOwn]
  | cons p t ih =>
    obtain ⟨k1, v1⟩ := p
    by_cases h : k1 = k
    · simp [lookupOwn, h]
    · have h2 : ¬ k = k1 := fun e => h e.symm
      simp [lookupOwn, h, h2, ih]

theorem lookupOwn_eq_none_iff (k : String) (l : List (String × String)) :
    lookupOwn k l = none ↔ k ∉ l.map Prod.fst := by
  rw [← lookupOwn_isSome_iff]
  cases lookupOwn k l <;> simp

theorem lookupOwn_setOwn_self (k v : String) (l : List (String × String)) :
    lookupOwn k (setOwn k v l) = some v := by
  induction l with
  | nil => simp [setOwn, lookupOwn]
  | cons p t ih =>
    obtain ⟨k1, v1⟩ := p
    by_cases h : k1 = k
    · simp [setOwn, lookupOwn, h]
    · simp [setOwn, lookupOwn, h, ih]

theorem lookupOwn_setOwn_ne {k j : String} (v : String) (l : List (String × String))
    (hne : j ≠ k) : lookupOwn j (setOwn k v l) = lookupOwn j l := by
  induction l with
  | nil =>
    have h2 : ¬ k = j := fun e => hne e.symm
    simp [setOwn, lookupOwn, h2]
  | cons p t ih =>
    obtain ⟨k1, v1⟩ := p
    by_cases h : k1 = k
    · have h2 : ¬ k = j := fun e => hne e.symm
      have h3 : ¬ k1 = j := by rw [h]; exact h2
      simp [setOwn, lookupOwn, h, h2]
    · by_cases h4 : k1 = j
      · subst h4
        simp [setOwn, lookupOwn, h]
      · simp [setOwn, lookupOwn, h, h4, ih]

theorem keys_setOwn (k v : String) (l : List (String × String)) :
    (setOwn k v l).map Prod.fst =
      if k ∈ l.map Prod.fst then l.map Prod.fst else l.map Prod.fst ++ [k] := by
  induction l with
  | nil => simp [setOwn]
  | cons p t ih =>
    obtain ⟨k1, v1⟩ := p
    by_cases h : k1 = k
    · simp [setOwn, h]
    · have h2 : ¬ k = k1 := fun e => h e.symm
      simp only [setOwn, h, if_false, List.map_cons, ih, List.mem_cons, h2, false_or]
      split <;> simp

theorem keys_filter_ne (k : String) (l : List (String × String)) :
    (l.filter (fun p => p.1 != k)).map Prod.fst = (l.map Prod.fst).filter (fun j => j != k) := by
  induction l with
  | nil => simp
  | cons p t ih =>
    obtain ⟨k1, v1⟩ := p
    by_cases h : k1 = k
    · simp [List.filter_cons, h, ih]
    · simp [List.filter_cons, h, ih]

theorem lookupOwn_filter_self (k : String) (l : List (String × String)) :
    lookupOwn k (l.filter (fun p => p.1 != k)) = none := by
  rw [lookupOwn_eq_none_iff, keys_filter_ne]
  simp

theorem lookupOwn_filter_ne {k j : String} (l : List (String × String)) (hne : j ≠ k) :
    lookupOwn j (l.filter (fun p => p.1 != k)) = lookupOwn j l := by
  induction l with
  | nil => simp
  | cons p t ih =>
    obtain ⟨k1, v1⟩ := p
    by_cases h : k1 = k
    · have h3 : ¬ k1 = j := by rw [h]; exact fun e => hne e.symm
      simp [List.filter_cons, h, lookupOwn, ih]
      rw [← h]; simp [h3]
    · by_cases h4 : k1 = j
      · subst h4
        simp [List.filter_cons, h, lookupOwn]
      · simp [List.filter_cons, h, lookupOwn, h4, ih]

theorem filter_ne_of_not_mem (k : String) (l : List (String × String))
    (h : k ∉ l.map Prod.fst) : l.filter (fun p => p.1 != k) = l := by
  rw [List.filter_eq_self]
  intro p hp
  have : p.1 ≠ k := by
    intro e
    apply h
    rw [← e]
    exact List.mem_map_of_mem Prod.fst hp
  simpa using this

/-! ## `Object.keys` lists exactly the own keys -/

theorem insertIndexKey_perm (k : String) (l : List String) :
    (insertIndexKey k l).Perm (k :: l) := by
  induction l with
  | nil => simp [insertIndexKey]
  | cons h t ih =>
    unfold insertIndexKey
    split
    · exact List.Perm.refl _
    · exact (List.Perm.cons h ih).trans (List.Perm.swap k h t)

theorem sortIndexKeys_perm (l : List String) : (sortIndexKeys l).Perm l := by
  induction l with
  | nil => simp [sortIndexKeys]
  | cons h t ih =>
    unfold sortIndexKeys
    exact (insertIndexKey_perm h _).trans (List.Perm.cons h ih)

theorem keys_perm_ownKeys (o : JSObject) : o.keys.Perm o.ownKeys := by
  unfold JSObject.keys
  refine (List.Perm.append_right _ (sortIndexKeys_perm _)).trans ?_
  exact List.filter_append_perm isArrayIndex o.ownKeys

theorem mem_keys_iff (o : JSObject) (k : String) : k ∈ o.keys ↔ k ∈ o.ownKeys :=
  (keys_perm_ownKeys o).mem_iff

theorem count_keys (o : JSObject) (k : String) : o.keys.count k = o.ownKeys.count k :=
  (keys_perm_ownKeys o).count_eq k

theorem keys_nodup (o : JSObject) (h : o.WF) : o.keys.Nodup :=
  (keys_perm_ownKeys o).nodup_iff.mpr h

/-! ## The object operations -/

theorem hasOwn_iff (o : JSObject) (k : String) : o.hasOwn k = true ↔ k ∈ o.ownKeys :=
  lookupOwn_isSome_iff k o.props

theorem hasOwn_iff_keys (o : JSObject) (k : String) : o.hasOwn k = true ↔ k ∈ o.keys := by
  rw [hasOwn_iff, mem_keys_iff]

theorem WF_empty : JSObject.empty.WF := by
  simp [JSObject.WF, JSObject.ownKeys, JSObject.empty]

theorem WF_set (o : JSObject) (k v : String) (h : o.WF) : (o.set k v).WF := by
  unfold JSObject.set
  split
  · exact h
  · unfold JSObject.WF JSObject.ownKeys at *
    simp only [keys_setOwn]
    split
    · exact h
    · rename_i hk
      rw [List.nodup_append]
      refine ⟨h, List.nodup_singleton k, ?_⟩
      intro a ha hb
      rw [List.mem_singleton] at hb
      subst hb
      exact hk ha

theorem WF_delete (o : JSObject) (k : String) (h : o.WF) : (o.delete k).WF := by
  unfold JSObject.delete JSObject.WF JSObject.ownKeys at *
  simp only [keys_filter_ne]
  exact h.filter _

theorem ownKeys_delete (o : JSObject) (k : String) :
    (o.delete k).ownKeys = o.ownKeys.filter (fun j => j != k) :=
  keys_filter_ne k o.props

theorem mem_ownKeys_delete (o : JSObject) (k j : String) :
    j ∈ (o.delete k).ownKeys ↔ j ∈ o.ownKeys ∧ j ≠ k := by
  rw [ownKeys_delete]; simp

theorem get_delete_ne (o : JSObject) {k j : String} (hne : j ≠ k) :
    (o.delete k).get j = o.get j := by
  unfold JSObject.get JSObject.delete
  simp only [lookupOwn_filter_ne o.props hne]

theorem hasOwn_delete_self (o : JSObject) (k : String) : (o.delete k).hasOwn k = false := by
  unfold JSObject.hasOwn JSObject.delete
  simp [lookupOwn_filter_self]

theorem get_delete_self (o : JSObject) (k : String) :
    (o.delete k).get k = if k ∈ objectPrototypeNames then .inherited k else .undefined := by
  unfold JSObject.get JSObject.delete
  simp only [lookupOwn_filter_self]

theorem delete_of_not_hasOwn (o : JSObject) (k : String) (h : o.hasOwn k = false) :
    o.delete k = o := by
  have hk : k ∉ o.props.map Prod.fst := by
    intro hm
    have := (lookupOwn_isSome_iff k o.props).mpr hm
    unfold JSObject.hasOwn at h
    rw [h] at this
    exact Bool.false_ne_true this
  unfold JSObject.delete
  rw [filter_ne_of_not_mem k o.props hk]

theorem set_eq_of_ne_proto (o : JSObject) {k : String} (v : String) (hk : k ≠ "__proto__") :
    o.set k v = ⟨setOwn k v o.props⟩ := by
  unfold JSObject.set
  simp [hk]

theorem get_set_self (o : JSObject) {k : String} (v : String) (hk : k ≠ "__proto__") :
    (o.set k v).get k = .str v := by
  rw [set_eq_of_ne_proto o v hk]
  unfold JSObject.get
  simp only [lookupOwn_setOwn_self]

theorem get_set_ne (o : JSObject) {k j : String} (v : String) (hne : j ≠ k) :
    (o.set k v).get j = o.get j := by
  unfold JSObject.set
  split
  · rfl
  · unfold JSObject.get
    simp only [lookupOwn_setOwn_ne v o.props hne]

theorem mem_ownKeys_set (o : JSObject) {k : String} (v : String) (hk : k ≠ "__proto__")
    (j : String) : j ∈ (o.set k v).ownKeys ↔ j = k ∨ j ∈ o.ownKeys := by
  rw [set_eq_of_ne_proto o v hk]
  unfold JSObject.ownKeys
  simp only [keys_setOwn]
  split
  · rename_i hm
    constructor
    · exact fun h => Or.inr h
    · rintro (h | h)
      · rw [h]; exact hm
      · exact h
  · simp [or_comm]

theorem mem_ownKeys_set_ne (o : JSObject) {k j : String} (v : String) (hne : j ≠ k) :
    j ∈ (o.set k v).ownKeys ↔ j ∈ o.ownKeys := by
  unfold JSObject.set
  split
  · rfl
  · unfold JSObject.ownKeys
    simp only [keys_setOwn]
    split
    · rfl
    · simp [hne]

/-! ## The connection handlers -/

theorem onConnection_identified (m : JSObject) (s : Socket) (u : String)
    (h : s.userId = some u) (hu : u ≠ "") :
    onConnection m s =
      (m.set u s.id, [Emitted.toAll "getOnlineUsers" (m.set u s.id).keys]) := by
  unfold onConnection
  simp [h, truthy, toPropertyKey, hu]

theorem onConnection_anonymous (m : JSObject) (s : Socket) (h : truthy s.userId = false) :
    onConnection m s = (m, [Emitted.toAll "getOnlineUsers" m.keys]) := by
  unfold onConnection
  simp [h]

theorem onDisconnect_eq (m : JSObject) (s : Socket) :
    onDisconnect m s =
      (m.delete (toPropertyKey s.userId),
        [Emitted.toAll "getOnlineUsers" (m.delete (toPropertyKey s.userId)).keys]) := rfl

theorem WF_onConnection (m : JSObject) (s : Socket) (h : m.WF) : (onConnection m s).1.WF := by
  unfold onConnection
  simp only
  split
  · exact WF_set m _ _ h
  · exact h

theorem WF_onDisconnect (m : JSObject) (s : Socket) (h : m.WF) : (onDisconnect m s).1.WF :=
  WF_delete m _ h

/-! ## C1: reconnecting under the same user id -/

/-- Last writer wins on every key but `__proto__`: for every registry state,
every non-empty user id `u` other than `__proto__` and all sockets `s1`, `s2` whose handshake carries `u`,
running the connection handler for `s1` (which maps `u` to the id of `s1`)
and then for `s2` leaves exactly one entry for `u` (one own key, listed once by `Object.keys`) and
`getReceiverSocketId(u)` returns the id of `s2`. -/
theorem reconnect_last_writer_wins (m : JSObject) (u : String) (s1 s2 : Socket)
    (hwf : m.WF) (hu : u ≠ "") (hp : u ≠ "__proto__")
    (h1 : s1.userId = some u) (h2 : s2.userId = some u) :
    getReceiverSocketId (onConnection m s1).1 u = .str s1.id ∧
    (onConnection (onConnection m s1).1 s2).1.ownKeys.count u = 1 ∧
    (onConnection (onConnection m s1).1 s2).1.keys.count u = 1 ∧
    getReceiverSocketId (onConnection (onConnection m s1).1 s2).1 u = .str s2.id := by
  have hwf2 : (onConnection (onConnection m s1).1 s2).1.WF :=
    WF_onConnection _ _ (WF_onConnection _ _ hwf)
  rw [onConnection_identified _ s2 u h2 hu] at hwf2 ⊢
  have hmem : u ∈ ((onConnection m s1).1.set u s2.id).ownKeys :=
    (mem_ownKeys_set _ _ hp u).mpr (Or.inl rfl)
  have hcount : ((onConnection m s1).1.set u s2.id).ownKeys.count u = 1 :=
    List.count_eq_one_of_mem hwf2 hmem
  refine ⟨?_, hcount, ?_, ?_⟩
  · rw [onConnection_identified m s1 u h1 hu]
    exact get_set_self _ _ hp
  · rw [count_keys]; exact hcount
  · exact get_set_self _ _ hp

/-- An instance: two connects as `u1` onto a registry that already holds
another user. -/
theorem reconnect_last_writer_wins_instance :
    getReceiverSocketId (onConnection ⟨[("u2", "c0")]⟩ ⟨"c1", some "u1"⟩).1 "u1" = .str "c1" ∧
    (onConnection (onConnection ⟨[("u2", "c0")]⟩ ⟨"c1", some "u1"⟩).1
        ⟨"c2", some "u1"⟩).1.ownKeys.count "u1" = 1 ∧
    (onConnection (onConnection ⟨[("u2", "c0")]⟩ ⟨"c1", some "u1"⟩).1
        ⟨"c2", some "u1"⟩).1.keys.count "u1" = 1 ∧
    getReceiverSocketId (onConnection (onConnection ⟨[("u2", "c0")]⟩ ⟨"c1", some "u1"⟩).1
        ⟨"c2", some "u1"⟩).1 "u1" = .str "c2" :=
  reconnect_last_writer_wins ⟨[("u2", "c0")]⟩ "u1" ⟨"c1", some "u1"⟩ ⟨"c2", some "u1"⟩
    (by decide) (by decide) (by decide) rfl rfl

/-- C1 fails on the code for the user id `__proto__`: after two identified
connects under it, on sockets `c1` and `c2`, the registry has no entry for it
and `getReceiverSocketId` returns the inherited `Object.prototype` member
instead of the second socket id `c2`. -/
theorem C1_proto_reconnect_leaves_no_entry :
    (onConnection (onConnection JSObject.empty ⟨"c1", some "__proto__"⟩).1
        ⟨"c2", some "__proto__"⟩).1.ownKeys.count "__proto__" = 0 ∧
    getReceiverSocketId (onConnection (onConnection JSObject.empty ⟨"c1", some "__proto__"⟩).1
        ⟨"c2", some "__proto__"⟩).1 "__proto__" = .inherited "__proto__" ∧
    getReceiverSocketId (onConnection (onConnection JSObject.empty ⟨"c1", some "__proto__"⟩).1
        ⟨"c2", some "__proto__"⟩).1 "__proto__" ≠ .str "c2" := by
  decide

/-! ## C2: the roster after a sequence of registry statements -/

theorem applyOps_concat (m : JSObject) (ops : List RegistryOp) (op : RegistryOp) :
    applyOps m (ops ++ [op]) = RegistryOp.apply (applyOps m ops) op := by
  simp [applyOps, List.foldl_append]

theorem WF_applyOps (m : JSObject) (ops : List RegistryOp) (h : m.WF) : (applyOps m ops).WF := by
  induction ops using List.reverseRecOn with
  | nil => exact h
  | append_singleton ops op ih =>
    rw [applyOps_concat]
    cases op with
    | register k v => exact WF_set _ _ _ ih
    | deregister k => exact WF_delete _ _ ih

/-- The registry step of the connection handler is the `register` statement
when `userId` is truthy and nothing otherwise; that of the disconnect listener
is the `deregister` statement on the property key of `userId`. -/
theorem handlers_as_registry_ops (m : JSObject) (s : Socket) :
    (onConnection m s).1 =
      applyOps m (if truthy s.userId then [.register (toPropertyKey s.userId) s.id] else []) ∧
    (onDisconnect m s).1 = applyOps m [.deregister (toPropertyKey s.userId)] := by
  constructor
  · unfold onConnection
    by_cases h : truthy s.userId = true
    · simp [h, applyOps, RegistryOp.apply]
    · simp [h, applyOps]
  · rfl

/-- The own keys after a run, whatever the initial registry: `u` is a key
exactly when some `register` of `u` has no later `deregister` of `u`, or `u`
was a key initially and was never deregistered. -/
theorem mem_ownKeys_applyOps (m : JSObject) (ops : List RegistryOp) (u : String)
    (hp : u ≠ "__proto__") :
    u ∈ (applyOps m ops).ownKeys ↔
      (∃ pre c post, ops = pre ++ RegistryOp.register u c :: post ∧
          RegistryOp.deregister u ∉ post) ∨
      (u ∈ m.ownKeys ∧ RegistryOp.deregister u ∉ ops) := by
  induction ops using List.reverseRecOn with
  | nil => simp [applyOps]
  | append_singleton ops op ih =>
    rw [applyOps_concat]
    constructor
    · intro h
      cases op with
      | register k v =>
        simp only [RegistryOp.apply] at h
        by_cases hk : u = k
        · subst hk
          exact Or.inl ⟨ops, v, [], rfl, by simp⟩
        · have h2 : u ∈ (applyOps m ops).ownKeys := (mem_ownKeys_set_ne _ v hk).mp h
          rcases ih.mp h2 with ⟨pre, c, post, he, hn⟩ | ⟨hm, hn⟩
          · refine Or.inl ⟨pre, c, post ++ [.register k v], ?_, ?_⟩
            · rw [he]; simp
            · simp [hn]
          · refine Or.inr ⟨hm, ?_⟩
            simp [hn]
      | deregister k =>
        simp only [RegistryOp.apply] at h
        have h2 := (mem_ownKeys_delete (applyOps m ops) k u).mp h
        have hk : RegistryOp.deregister u ≠ RegistryOp.deregister k := by
          intro e
          injection e with e
          exact h2.2 e
        rcases ih.mp h2.1 with ⟨pre, c, post, he, hn⟩ | ⟨hm, hn⟩
        · refine Or.inl ⟨pre, c, post ++ [.deregister k], ?_, ?_⟩
          · rw [he]; simp
          · simp [hn, hk]
        · refine Or.inr ⟨hm, ?_⟩
          simp [hn, hk]
    · rintro (⟨pre, c, post, he, hn⟩ | ⟨hm, hn⟩)
      · rcases List.eq_nil_or_concat post with hpost | ⟨post1, x, hpost⟩
        · subst hpost
          have he2 : ops ++ [op] = pre ++ [RegistryOp.register u c] := he
          obtain ⟨-, hop⟩ := List.append_inj' he2 rfl
          have hop2 : op = RegistryOp.register u c := by simpa using hop
          subst hop2
          simp only [RegistryOp.apply]
          exact (mem_ownKeys_set _ c hp u).mpr (Or.inl rfl)
        · subst hpost
          have he2 : ops ++ [op] = (pre ++ RegistryOp.register u c :: post1) ++ [x] := by
            rw [he]; simp
          obtain ⟨hops, hop⟩ := List.append_inj' he2 rfl
          have hop2 : op = x := by simpa using hop
          subst hop2
          have hn1 : RegistryOp.deregister u ∉ post1 := fun hh => hn (by simp [hh])
          have hn2 : RegistryOp.deregister u ≠ op := fun hh => hn (by simp [hh])
          have hprev : u ∈ (applyOps m ops).ownKeys :=
            ih.mpr (Or.inl ⟨pre, c, post1, hops, hn1⟩)
          cases op with
          | register k v =>
            simp only [RegistryOp.apply]
            by_cases hk : u = k
            · subst hk
              exact (mem_ownKeys_set _ v hp u).mpr (Or.inl rfl)
            · exact (mem_ownKeys_set_ne _ v hk).mpr hprev
          | deregister k =>
            simp only [RegistryOp.apply]
            refine (mem_ownKeys_delete _ k u).mpr ⟨hprev, ?_⟩
            intro e
            exact hn2 (by rw [e])
      · have hn1 : RegistryOp.deregister u ∉ ops := fun hh => hn (by simp [hh])
        have hn2 : RegistryOp.deregister u ≠ op := fun hh => hn (by simp [hh])
        have hprev : u ∈ (applyOps m ops).ownKeys := ih.mpr (Or.inr ⟨hm, hn1⟩)
        cases op with
        | register k v =>
          simp only [RegistryOp.apply]
          by_cases hk : u = k
          · subst hk
            exact (mem_ownKeys_set _ v hp u).mpr (Or.inl rfl)
          · exact (mem_ownKeys_set_ne _ v hk).mpr hprev
        | deregister k =>
          simp only [RegistryOp.apply]
          refine (mem_ownKeys_delete _ k u).mpr ⟨hprev, ?_⟩
          intro e
          exact hn2 (by rw [e])

/-- The roster on every key but `__proto__`: starting from the empty
registry, after every finite sequence of `register` and `deregister` statements a user id `u` other than
`__proto__` is listed by `Object.keys(userSocketMap)` if and only if the
sequence contains a `register` of `u` that no later `deregister` of `u`
follows. -/
theorem snapshot_is_registered_set (ops : List RegistryOp) (u : String)
    (hp : u ≠ "__proto__") :
    u ∈ (applyOps JSObject.empty ops).keys ↔
      ∃ pre c post, ops = pre ++ RegistryOp.register u c :: post ∧
        RegistryOp.deregister u ∉ post := by
  rw [mem_keys_iff, mem_ownKeys_applyOps JSObject.empty ops u hp]
  constructor
  · rintro (h | ⟨hm, -⟩)
    · exact h
    · simp [JSObject.empty, JSObject.ownKeys] at hm
  · exact Or.inl

/-- An instance: `u1` registers, deregisters and registers again while
`u2` registers and leaves. -/
theorem snapshot_is_registered_set_instance :
    "u1" ∈ (applyOps JSObject.empty
        [.register "u1" "c1", .register "u2" "c2", .deregister "u1", .register "u1" "c3",
         .deregister "u2"]).keys ↔
      ∃ pre c post,
        [RegistryOp.register "u1" "c1", .register "u2" "c2", .deregister "u1",
         .register "u1" "c3", .deregister "u2"] = pre ++ RegistryOp.register "u1" c :: post ∧
        RegistryOp.deregister "u1" ∉ post :=
  snapshot_is_registered_set _ "u1" (by decide)

/-- C2 fails on the code for the user id `__proto__`: the sequence consisting
of one `register` of `__proto__` contains a register that no deregister
follows, yet `Object.keys(userSocketMap)` does not list `__proto__`. -/
theorem C2_proto_register_not_listed :
    (∃ pre c post, [RegistryOp.register "__proto__" "c1"] =
        pre ++ RegistryOp.register "__proto__" c :: post ∧
        RegistryOp.deregister "__proto__" ∉ post) ∧
    "__proto__" ∉ (applyOps JSObject.empty [.register "__proto__" "c1"]).keys :=
  ⟨⟨[], "c1", [], rfl, by simp⟩, by decide⟩

/-! ## C3, C4: `sendMessage` -/

theorem lookupOwn_mem {k v : String} {l : List (String × String)}
    (h : lookupOwn k l = some v) : (k, v) ∈ l := by
  induction l with
  | nil => simp [lookupOwn] at h
  | cons p t ih =>
    obtain ⟨k1, v1⟩ := p
    by_cases hk : k1 = k
    · simp [lookupOwn, hk] at h
      simp [hk, h]
    · simp [lookupOwn, hk] at h
      exact List.mem_cons_of_mem _ (ih h)

theorem persist_receiverId {ext : Collaborators} {req : Request} {msg : Message}
    (h : persist ext req = .ok msg) : msg.receiverId = req.id ∧ msg.senderId = req.userId ∧
      msg.text = req.text := by
  unfold persist at h
  cases hu : uploadImage ext req.image with
  | error e => simp [hu] at h
  | ok imageUrl =>
    simp only [hu] at h
    split at h
    · injection h with h
      subst h
      exact ⟨rfl, rfl, rfl⟩
    · exact Except.noConfusion h

theorem sendMessage_of_persisted {ext : Collaborators} (m : JSObject) {req : Request}
    {msg : Message} (h : persist ext req = .ok msg) :
    sendMessage ext m req =
      { userSocketMap := m,
        emitted :=
          if (getReceiverSocketId m msg.receiverId).truthy then
            [Emitted.toRoom (getReceiverSocketId m msg.receiverId) "newMessage" msg]
          else [],
        response := { status := 201, body := .message msg } } := by
  unfold sendMessage
  rw [h, (persist_receiverId h).1]

theorem sendMessage_of_failed {ext : Collaborators} (m : JSObject) {req : Request}
    {e : String} (h : persist ext req = .error e) :
    sendMessage ext m req =
      { userSocketMap := m, emitted := [],
        response := { status := 500, body := .error "Internal server error" } } := by
  unfold sendMessage
  rw [h]

theorem persist_fails_iff (ext : Collaborators) (req : Request) :
    (∃ e, persist ext req = .error e) ↔
      (∃ e, uploadImage ext req.image = .error e) ∨
      (∃ imageUrl e, uploadImage ext req.image = .ok imageUrl ∧
        ext.save { senderId := req.userId, receiverId := req.id, text := req.text,
                   image := imageUrl } = .error e) := by
  unfold persist
  cases hu : uploadImage ext req.image with
  | error e => simp
  | ok imageUrl =>
    cases hs : ext.save { senderId := req.userId, receiverId := req.id, text := req.text,
                          image := imageUrl } with
    | error e => simp [hs]
    | ok x => simp [hs]

/-- What the lookup returns: a string exactly when the user id has an own
entry, and `undefined` exactly when it has none and does not name an
`Object.prototype` member either. -/
theorem getReceiverSocketId_cases (m : JSObject) (u : String) :
    (∀ c, getReceiverSocketId m u = .str c ↔ lookupOwn u m.props = some c) ∧
    (getReceiverSocketId m u = .undefined ↔
      lookupOwn u m.props = none ∧ u ∉ objectPrototypeNames) := by
  unfold getReceiverSocketId JSObject.get
  cases h : lookupOwn u m.props with
  | some v => simp
  | none =>
    by_cases hp : u ∈ objectPrototypeNames
    · simp [hp]
    · simp [hp]

/-- The delivery step by what the lookup returns: for every request whose
message `msg` was persisted and every registry state holding socket ids, if
`getReceiverSocketId` returns a string `c`, then `sendMessage` emits exactly
one event, `newMessage` to the room `c` with payload `msg`; if
`getReceiverSocketId` returns `undefined`, it emits nothing; in both
cases the response is 201 with `msg` as body. -/
theorem deliver_by_lookup_result (ext : Collaborators) (m : JSObject) (req : Request)
    (msg : Message) (hsaved : persist ext req = .ok msg) (hids : m.HoldsSocketIds) :
    (∀ c, getReceiverSocketId m msg.receiverId = .str c →
      (sendMessage ext m req).emitted = [Emitted.toRoom (.str c) "newMessage" msg]) ∧
    (getReceiverSocketId m msg.receiverId = .undefined →
      (sendMessage ext m req).emitted = []) ∧
    (sendMessage ext m req).response = { status := 201, body := .message msg } := by
  rw [sendMessage_of_persisted m hsaved]
  refine ⟨?_, ?_, rfl⟩
  · intro c hc
    have hown := ((getReceiverSocketId_cases m msg.receiverId).1 c).mp hc
    have hne : c ≠ "" := hids _ (lookupOwn_mem hown)
    simp [hc, JSVal.truthy, hne]
  · intro hnone
    simp [hnone, JSVal.truthy]

/-- An instance: A1 sends "hi" to B1, once with B1 registered under
socket `s2` and once with B1 absent. -/
theorem deliver_by_lookup_result_instance :
    (sendMessage ⟨fun _ => .ok "url", fun _ => .ok ()⟩ ⟨[("A1", "s1"), ("B1", "s2")]⟩
        ⟨some "hi", none, "B1", "A1"⟩).emitted =
      [Emitted.toRoom (.str "s2") "newMessage" ⟨"A1", "B1", some "hi", none⟩] ∧
    (sendMessage ⟨fun _ => .ok "url", fun _ => .ok ()⟩ ⟨[("A1", "s1")]⟩
        ⟨some "hi", none, "B1", "A1"⟩).emitted = [] ∧
    (sendMessage ⟨fun _ => .ok "url", fun _ => .ok ()⟩ ⟨[("A1", "s1"), ("B1", "s2")]⟩
        ⟨some "hi", none, "B1", "A1"⟩).response =
      { status := 201, body := .message ⟨"A1", "B1", some "hi", none⟩ } :=
  ⟨(deliver_by_lookup_result ⟨fun _ => .ok "url", fun _ => .ok ()⟩
      ⟨[("A1", "s1"), ("B1", "s2")]⟩ ⟨some "hi", none, "B1", "A1"⟩
      ⟨"A1", "B1", some "hi", none⟩ rfl (by decide)).1 "s2" (by decide),
   (deliver_by_lookup_result ⟨fun _ => .ok "url", fun _ => .ok ()⟩
      ⟨[("A1", "s1")]⟩ ⟨some "hi", none, "B1", "A1"⟩
      ⟨"A1", "B1", some "hi", none⟩ rfl (by decide)).2.1 (by decide),
   (deliver_by_lookup_result ⟨fun _ => .ok "url", fun _ => .ok ()⟩
      ⟨[("A1", "s1"), ("B1", "s2")]⟩ ⟨some "hi", none, "B1", "A1"⟩
      ⟨"A1", "B1", some "hi", none⟩ rfl (by decide)).2.2⟩

/-- C3 fails on the code for a receiver id that names an `Object.prototype`
member: with nobody registered and the message to `constructor` saved, the
receiver id has no entry, yet `getReceiverSocketId` returns the inherited
function, which is truthy, and `sendMessage` emits one `newMessage` event to
it; the response is 201. -/
theorem C3_unregistered_receiver_gets_event :
    JSObject.empty.hasOwn "constructor" = false ∧
    "constructor" ∉ JSObject.empty.keys ∧
    (sendMessage ⟨fun _ => .ok "url", fun _ => .ok ()⟩ JSObject.empty
        ⟨some "hi", none, "constructor", "A1"⟩).emitted =
      [Emitted.toRoom (.inherited "constructor") "newMessage"
        ⟨"A1", "constructor", some "hi", none⟩] ∧
    (sendMessage ⟨fun _ => .ok "url", fun _ => .ok ()⟩ JSObject.empty
        ⟨some "hi", none, "constructor", "A1"⟩).emitted ≠ [] ∧
    (sendMessage ⟨fun _ => .ok "url", fun _ => .ok ()⟩ JSObject.empty
        ⟨some "hi", none, "constructor", "A1"⟩).response =
      { status := 201, body := .message ⟨"A1", "constructor", some "hi", none⟩ } := by
  decide

/-- C4: whenever the image upload or `newMessage.save()` throws,
`sendMessage` emits no event, leaves the registry as it was, answers 500 with
the generic error body, and all of this is the same whatever the registry
holds (the registry is not consulted). -/
theorem C4_failed_persist_no_delivery (ext : Collaborators) (m : JSObject) (req : Request)
    (hfail : (∃ e, uploadImage ext req.image = .error e) ∨
      (∃ imageUrl e, uploadImage ext req.image = .ok imageUrl ∧
        ext.save { senderId := req.userId, receiverId := req.id, text := req.text,
                   image := imageUrl } = .error e)) :
    (sendMessage ext m req).emitted = [] ∧
    (sendMessage ext m req).userSocketMap = m ∧
    (sendMessage ext m req).response =
      { status := 500, body := .error "Internal server error" } ∧
    ∀ m2 : JSObject, (sendMessage ext m2 req).emitted = (sendMessage ext m req).emitted ∧
      (sendMessage ext m2 req).response = (sendMessage ext m req).response := by
  obtain ⟨e, he⟩ := (persist_fails_iff ext req).mpr hfail
  refine ⟨?_, ?_, ?_, ?_⟩
  · rw [sendMessage_of_failed m he]
  · rw [sendMessage_of_failed m he]
  · rw [sendMessage_of_failed m he]
  · intro m2
    rw [sendMessage_of_failed m he, sendMessage_of_failed m2 he]
    exact ⟨rfl, rfl⟩

/-- C4, an instance: the save throws while the receiver is registered. -/
theorem C4_failed_persist_no_delivery_witness :
    (sendMessage ⟨fun _ => .ok "url", fun _ => .error "save failed"⟩ ⟨[("B1", "s2")]⟩
        ⟨some "hi", none, "B1", "A1"⟩).emitted = [] ∧
    (sendMessage ⟨fun _ => .ok "url", fun _ => .error "save failed"⟩ ⟨[("B1", "s2")]⟩
        ⟨some "hi", none, "B1", "A1"⟩).userSocketMap = ⟨[("B1", "s2")]⟩ ∧
    (sendMessage ⟨fun _ => .ok "url", fun _ => .error "save failed"⟩ ⟨[("B1", "s2")]⟩
        ⟨some "hi", none, "B1", "A1"⟩).response =
      { status := 500, body := .error "Internal server error" } ∧
    ∀ m2 : JSObject,
      (sendMessage ⟨fun _ => .ok "url", fun _ => .error "save failed"⟩ m2
        ⟨some "hi", none, "B1", "A1"⟩).emitted =
      (sendMessage ⟨fun _ => .ok "url", fun _ => .error "save failed"⟩ ⟨[("B1", "s2")]⟩
        ⟨some "hi", none, "B1", "A1"⟩).emitted ∧
      (sendMessage ⟨fun _ => .ok "url", fun _ => .error "save failed"⟩ m2
        ⟨some "hi", none, "B1", "A1"⟩).response =
      (sendMessage ⟨fun _ => .ok "url", fun _ => .error "save failed"⟩ ⟨[("B1", "s2")]⟩
        ⟨some "hi", none, "B1", "A1"⟩).response :=
  C4_failed_persist_no_delivery ⟨fun _ => .ok "url", fun _ => .error "save failed"⟩
    ⟨[("B1", "s2")]⟩ ⟨some "hi", none, "B1", "A1"⟩
    (Or.inr ⟨none, "save failed", rfl, rfl⟩)

/-! ## C5, C6: connections without a `userId` -/

/-- C5 (as amended): for every connection whose handshake carries no
`userId` (absent or empty), the connection handler emits exactly one
`getOnlineUsers` broadcast carrying the keys of the unchanged registry, and
its disconnect listener emits exactly one `getOnlineUsers` broadcast carrying
the keys of the registry as the listener leaves it. -/
theorem C5_anonymous_connection_broadcasts (m m2 : JSObject) (s : Socket)
    (hanon : truthy s.userId = false) :
    (onConnection m s).2 = [Emitted.toAll "getOnlineUsers" m.keys] ∧
    (onDisconnect m2 s).2 = [Emitted.toAll "getOnlineUsers" (onDisconnect m2 s).1.keys] := by
  rw [onConnection_anonymous m s hanon]
  exact ⟨rfl, rfl⟩

/-- C5, an instance: a socket without `userId` connects to, and later
disconnects from, a server where `u1` is registered. -/
theorem C5_anonymous_connection_broadcasts_witness :
    (onConnection ⟨[("u1", "c1")]⟩ ⟨"c2", none⟩).2 =
      [Emitted.toAll "getOnlineUsers" (JSObject.keys ⟨[("u1", "c1")]⟩)] ∧
    (onDisconnect ⟨[("u1", "c1")]⟩ ⟨"c2", none⟩).2 =
      [Emitted.toAll "getOnlineUsers" (onDisconnect ⟨[("u1", "c1")]⟩ ⟨"c2", none⟩).1.keys] :=
  C5_anonymous_connection_broadcasts ⟨[("u1", "c1")]⟩ ⟨[("u1", "c1")]⟩ ⟨"c2", none⟩ rfl

/-- C5 as stated fails: a socket whose handshake has no `userId` triggers a
`getOnlineUsers` broadcast when it connects and another when it closes. -/
theorem C5_counterexample :
    (onConnection ⟨[("u1", "c1")]⟩ ⟨"c2", none⟩).2 =
      [Emitted.toAll "getOnlineUsers" ["u1"]] ∧
    (onDisconnect ⟨[("u1", "c1")]⟩ ⟨"c2", none⟩).2 =
      [Emitted.toAll "getOnlineUsers" ["u1"]] := by
  decide

/-- The connect half of C6 holds: a connection without `userId` leaves the
registry as it was when it connects. -/
theorem anonymous_connect_leaves_registry (m : JSObject) (s : Socket)
    (hanon : truthy s.userId = false) : (onConnection m s).1 = m := by
  rw [onConnection_anonymous m s hanon]

/-- The close half of C6 holds as long as the registry has no own property
under the property key of the missing `userId`. -/
theorem anonymous_disconnect_leaves_registry (m : JSObject) (s : Socket)
    (hkey : m.hasOwn (toPropertyKey s.userId) = false) : (onDisconnect m s).1 = m := by
  rw [onDisconnect_eq]
  exact delete_of_not_hasOwn m _ hkey

/-- C6 fails on the code: with a user registered under the id `undefined`,
a socket whose handshake has no `userId` leaves the registry alone when it
connects, but its disconnect listener runs `delete userSocketMap[undefined]`,
which removes that user: the roster and the lookup change. -/
theorem C6_anonymous_disconnect_removes_undefined :
    (onConnection ⟨[("undefined", "c1")]⟩ ⟨"c2", none⟩).1 = ⟨[("undefined", "c1")]⟩ ∧
    (onDisconnect ⟨[("undefined", "c1")]⟩ ⟨"c2", none⟩).1 = JSObject.empty ∧
    JSObject.keys ⟨[("undefined", "c1")]⟩ = ["undefined"] ∧
    (onDisconnect ⟨[("undefined", "c1")]⟩ ⟨"c2", none⟩).1.keys = [] ∧
    getReceiverSocketId ⟨[("undefined", "c1")]⟩ "undefined" = .str "c1" ∧
    getReceiverSocketId (onDisconnect ⟨[("undefined", "c1")]⟩ ⟨"c2", none⟩).1 "undefined" =
      .undefined ∧
    (onConnection JSObject.empty ⟨"c1", some "undefined"⟩).1 = ⟨[("undefined", "c1")]⟩ := by
  decide

/-! ## C7, C8: identified connections -/

/-- What the disconnect listener achieves: for every connection with user id
`u` and every registry state at the time it closes, after the disconnect listener has run
`u` has no own entry, neither `Object.keys(userSocketMap)` nor the roster
broadcast that follows contains `u`, and `getReceiverSocketId(u)` is
`undefined` provided `u` is not the name of an `Object.prototype` member. -/
theorem disconnect_removes_user (m : JSObject) (id u : String) :
    (onDisconnect m ⟨id, some u⟩).1.hasOwn u = false ∧
    u ∉ (onDisconnect m ⟨id, some u⟩).1.keys ∧
    (∃ roster, (onDisconnect m ⟨id, some u⟩).2 = [Emitted.toAll "getOnlineUsers" roster] ∧
      u ∉ roster) ∧
    (u ∉ objectPrototypeNames →
      getReceiverSocketId (onDisconnect m ⟨id, some u⟩).1 u = .undefined) := by
  have hown : (onDisconnect m ⟨id, some u⟩).1.hasOwn u = false := by
    rw [onDisconnect_eq]
    exact hasOwn_delete_self m u
  have hkeys : u ∉ (onDisconnect m ⟨id, some u⟩).1.keys := by
    intro hmem
    have := (hasOwn_iff_keys _ u).mpr hmem
    rw [hown] at this
    exact Bool.false_ne_true this
  refine ⟨hown, hkeys, ⟨_, rfl, hkeys⟩, ?_⟩
  intro hp
  rw [onDisconnect_eq]
  simp only [getReceiverSocketId, toPropertyKey, get_delete_self, hp, if_false]

/-- An instance: `u1`, registered under a newer socket `c9`, has its
older socket `c1` closed. -/
theorem disconnect_removes_user_instance :
    (onDisconnect ⟨[("u1", "c9"), ("u2", "c2")]⟩ ⟨"c1", some "u1"⟩).1.hasOwn "u1" = false ∧
    "u1" ∉ (onDisconnect ⟨[("u1", "c9"), ("u2", "c2")]⟩ ⟨"c1", some "u1"⟩).1.keys ∧
    (∃ roster, (onDisconnect ⟨[("u1", "c9"), ("u2", "c2")]⟩ ⟨"c1", some "u1"⟩).2 =
      [Emitted.toAll "getOnlineUsers" roster] ∧ "u1" ∉ roster) ∧
    getReceiverSocketId (onDisconnect ⟨[("u1", "c9"), ("u2", "c2")]⟩ ⟨"c1", some "u1"⟩).1 "u1" =
      .undefined :=
  ⟨(disconnect_removes_user ⟨[("u1", "c9"), ("u2", "c2")]⟩ "c1" "u1").1,
   (disconnect_removes_user ⟨[("u1", "c9"), ("u2", "c2")]⟩ "c1" "u1").2.1,
   (disconnect_removes_user ⟨[("u1", "c9"), ("u2", "c2")]⟩ "c1" "u1").2.2.1,
   (disconnect_removes_user ⟨[("u1", "c9"), ("u2", "c2")]⟩ "c1" "u1").2.2.2 (by decide)⟩

/-- C7 fails on the code for a user id that names an `Object.prototype`
member: after the connection with user id `toString` has connected and
closed, `getReceiverSocketId` returns the inherited function, not
`undefined`. -/
theorem C7_lookup_after_disconnect_is_inherited :
    getReceiverSocketId
      (onDisconnect (onConnection JSObject.empty ⟨"c1", some "toString"⟩).1
        ⟨"c1", some "toString"⟩).1 "toString" = .inherited "toString" ∧
    getReceiverSocketId
      (onDisconnect (onConnection JSObject.empty ⟨"c1", some "toString"⟩).1
        ⟨"c1", some "toString"⟩).1 "toString" ≠ .undefined := by
  decide

/-- Registration on every key but `__proto__`: for every socket whose
handshake carries a non-empty `userId` `u` other than `__proto__`, once the connection handler has run
`getReceiverSocketId(u)` returns the socket's id, `u` is listed by
`Object.keys(userSocketMap)`, and the one broadcast the handler emits is a
`getOnlineUsers` roster that contains `u`. -/
theorem connect_registers_user (m : JSObject) (s : Socket) (u : String)
    (h : s.userId = some u) (hu : u ≠ "") (hp : u ≠ "__proto__") :
    getReceiverSocketId (onConnection m s).1 u = .str s.id ∧
    u ∈ (onConnection m s).1.keys ∧
    ∃ roster, (onConnection m s).2 = [Emitted.toAll "getOnlineUsers" roster] ∧ u ∈ roster := by
  rw [onConnection_identified m s u h hu]
  have hmem : u ∈ (m.set u s.id).keys :=
    (mem_keys_iff _ u).mpr ((mem_ownKeys_set m s.id hp u).mpr (Or.inl rfl))
  exact ⟨get_set_self m s.id hp, hmem, ⟨_, rfl, hmem⟩⟩

/-- An instance: `u2` connects while `u1` is online. -/
theorem connect_registers_user_instance :
    getReceiverSocketId (onConnection ⟨[("u1", "c1")]⟩ ⟨"c2", some "u2"⟩).1 "u2" = .str "c2" ∧
    "u2" ∈ (onConnection ⟨[("u1", "c1")]⟩ ⟨"c2", some "u2"⟩).1.keys ∧
    ∃ roster, (onConnection ⟨[("u1", "c1")]⟩ ⟨"c2", some "u2"⟩).2 =
      [Emitted.toAll "getOnlineUsers" roster] ∧ "u2" ∈ roster :=
  connect_registers_user ⟨[("u1", "c1")]⟩ ⟨"c2", some "u2"⟩ "u2" rfl (by decide) (by decide)

/-- C8 fails on the code for the non-empty `userId` `__proto__`: after the
connection handler has run the lookup returns the inherited
`Object.prototype` member rather than the socket id, and neither
`Object.keys(userSocketMap)` nor the broadcast roster contains the id. -/
theorem C8_proto_connect_not_registered :
    getReceiverSocketId (onConnection JSObject.empty ⟨"c1", some "__proto__"⟩).1 "__proto__" =
      .inherited "__proto__" ∧
    "__proto__" ∉ (onConnection JSObject.empty ⟨"c1", some "__proto__"⟩).1.keys ∧
    (onConnection JSObject.empty ⟨"c1", some "__proto__"⟩).2 =
      [Emitted.toAll "getOnlineUsers" []] := by
  decide

/-! ## C9: the payload of every roster broadcast -/

theorem step_registry_WF (m : JSObject) (e : ServerEvent) (h : m.WF) : (step m e).1.WF := by
  cases e with
  | connection s => exact WF_onConnection m s h
  | disconnect s => exact WF_onDisconnect m s h
  | send ext req =>
    unfold step sendMessage
    simp only
    split <;> exact h

theorem runServer_concat (m : JSObject) (events : List ServerEvent) (e : ServerEvent) :
    runServer m (events ++ [e]) = (step (runServer m events) e).1 := by
  simp [runServer, List.foldl_append]

theorem WF_runServer (m : JSObject) (events : List ServerEvent) (h : m.WF) :
    (runServer m events).WF := by
  induction events using List.reverseRecOn with
  | nil => exact h
  | append_singleton events e ih =>
    rw [runServer_concat]
    exact step_registry_WF _ e ih

/-- C9: in every state the server reaches from the empty registry, every
`getOnlineUsers` event that the handler of the next event emits carries
exactly `Object.keys` of the registry as that handler leaves it, lists no
user id twice, and the handler is that of a connect or a disconnect whose
registry statement has already been applied to that registry. -/
theorem C9_broadcast_carries_current_roster (events : List ServerEvent) (e : ServerEvent)
    (roster : List String)
    (hemit : Emitted.toAll "getOnlineUsers" roster ∈ (step (runServer JSObject.empty events) e).2) :
    roster = (step (runServer JSObject.empty events) e).1.keys ∧
    roster.Nodup ∧
    ((∃ s, e = .connection s ∧
        (step (runServer JSObject.empty events) e).1 =
          applyOps (runServer JSObject.empty events)
            (if truthy s.userId then [.register (toPropertyKey s.userId) s.id] else [])) ∨
     (∃ s, e = .disconnect s ∧
        (step (runServer JSObject.empty events) e).1 =
          applyOps (runServer JSObject.empty events)
            [.deregister (toPropertyKey s.userId)])) := by
  have hwf : (step (runServer JSObject.empty events) e).1.WF :=
    step_registry_WF _ e (WF_runServer _ events WF_empty)
  have hnodup := keys_nodup _ hwf
  cases e with
  | connection s =>
    have hr : roster = (onConnection (runServer JSObject.empty events) s).1.keys := by
      simp only [step, onConnection, List.mem_singleton, Emitted.toAll.injEq, true_and] at hemit
      exact hemit
    refine ⟨hr, ?_, Or.inl ⟨s, rfl, (handlers_as_registry_ops _ s).1⟩⟩
    rw [hr]; exact hnodup
  | disconnect s =>
    have hr : roster = (onDisconnect (runServer JSObject.empty events) s).1.keys := by
      simp only [step, onDisconnect, List.mem_singleton, Emitted.toAll.injEq, true_and] at hemit
      exact hemit
    refine ⟨hr, ?_, Or.inr ⟨s, rfl, (handlers_as_registry_ops _ s).2⟩⟩
    rw [hr]; exact hnodup
  | send ext req =>
    exfalso
    simp only [step, sendMessage] at hemit
    split at hemit
    · simp only at hemit
      split at hemit
      · simp at hemit
      · simp at hemit
    · simp at hemit

/-- C9, an instance: after `u1` and `u2` have connected, `u1` connects
again on a new socket; the broadcast lists each of them once. -/
theorem C9_broadcast_carries_current_roster_witness :
    ["u1", "u2"] =
      (step (runServer JSObject.empty
        [.connection ⟨"c1", some "u1"⟩, .connection ⟨"c2", some "u2"⟩])
        (.connection ⟨"c3", some "u1"⟩)).1.keys ∧
    ["u1", "u2"].Nodup ∧
    ((∃ s, ServerEvent.connection ⟨"c3", some "u1"⟩ = .connection s ∧
        (step (runServer JSObject.empty
          [.connection ⟨"c1", some "u1"⟩, .connection ⟨"c2", some "u2"⟩])
          (.connection ⟨"c3", some "u1"⟩)).1 =
          applyOps (runServer JSObject.empty
            [.connection ⟨"c1", some "u1"⟩, .connection ⟨"c2", some "u2"⟩])
            (if truthy s.userId then [.register (toPropertyKey s.userId) s.id] else [])) ∨
     (∃ s, ServerEvent.connection ⟨"c3", some "u1"⟩ = .disconnect s ∧
        (step (runServer JSObject.empty
          [.connection ⟨"c1", some "u1"⟩, .connection ⟨"c2", some "u2"⟩])
          (.connection ⟨"c3", some "u1"⟩)).1 =
          applyOps (runServer JSObject.empty
            [.connection ⟨"c1", some "u1"⟩, .connection ⟨"c2", some "u2"⟩])
            [.deregister (toPropertyKey s.userId)])) :=
  C9_broadcast_carries_current_roster
    [.connection ⟨"c1", some "u1"⟩, .connection ⟨"c2", some "u2"⟩]
    (.connection ⟨"c3", some "u1"⟩) ["u1", "u2"] (by decide)

/-! ## C10: deregistering an absent user -/

/-- C10: for every registry state and every user id `u` without an entry,
`delete userSocketMap[u]` leaves the registry as it was, so
`Object.keys(userSocketMap)` and every lookup are unchanged; the same holds
for the disconnect listener of any socket whose `userId` has that property
key. -/
theorem C10_deregister_absent_is_noop (m : JSObject) (u : String) (habsent : m.hasOwn u = false) :
    RegistryOp.apply m (.deregister u) = m ∧
    (RegistryOp.apply m (.deregister u)).keys = m.keys ∧
    (∀ k, getReceiverSocketId (RegistryOp.apply m (.deregister u)) k = getReceiverSocketId m k) ∧
    (∀ s : Socket, toPropertyKey s.userId = u → (onDisconnect m s).1 = m) := by
  have h : m.delete u = m := delete_of_not_hasOwn m u habsent
  refine ⟨h, ?_, ?_, ?_⟩
  · simp only [RegistryOp.apply, h]
  · intro k
    simp only [RegistryOp.apply, h]
  · intro s hs
    rw [onDisconnect_eq, hs]
    exact h

/-- C10, an instance: `u3` is deregistered while only `u1` and `u2` are
registered. -/
theorem C10_deregister_absent_is_noop_witness :
    RegistryOp.apply ⟨[("u1", "c1"), ("u2", "c2")]⟩ (.deregister "u3") =
      ⟨[("u1", "c1"), ("u2", "c2")]⟩ ∧
    (RegistryOp.apply ⟨[("u1", "c1"), ("u2", "c2")]⟩ (.deregister "u3")).keys =
      JSObject.keys ⟨[("u1", "c1"), ("u2", "c2")]⟩ ∧
    (∀ k, getReceiverSocketId (RegistryOp.apply ⟨[("u1", "c1"), ("u2", "c2")]⟩
        (.deregister "u3")) k = getReceiverSocketId ⟨[("u1", "c1"), ("u2", "c2")]⟩ k) ∧
    (∀ s : Socket, toPropertyKey s.userId = "u3" →
      (onDisconnect ⟨[("u1", "c1"), ("u2", "c2")]⟩ s).1 = ⟨[("u1", "c1"), ("u2", "c2")]⟩) :=
  C10_deregister_absent_is_noop ⟨[("u1", "c1"), ("u2", "c2")]⟩ "u3" (by decide)

/-! ## Reachable registries hold socket ids -/

theorem mem_setOwn {k v : String} {l : List (String × String)} {p : String × String}
    (h : p ∈ setOwn k v l) : p = (k, v) ∨ p ∈ l := by
  induction l with
  | nil =>
    simp only [setOwn, List.mem_singleton] at h
    exact Or.inl h
  | cons q t ih =>
    obtain ⟨k1, v1⟩ := q
    by_cases hk : k1 = k
    · simp only [setOwn, hk, if_true, List.mem_cons] at h
      rcases h with h | h
      · exact Or.inl h
      · exact Or.inr (List.mem_cons_of_mem _ h)
    · simp only [setOwn, hk, if_false, List.mem_cons] at h
      rcases h with h | h
      · exact Or.inr (by rw [h]; exact List.mem_cons_self _ _)
      · rcases ih h with h2 | h2
        · exact Or.inl h2
        · exact Or.inr (List.mem_cons_of_mem _ h2)

theorem HoldsSocketIds_set (m : JSObject) (k v : String) (h : m.HoldsSocketIds) (hv : v ≠ "") :
    (m.set k v).HoldsSocketIds := by
  unfold JSObject.set
  split
  · exact h
  · intro p hp
    rcases mem_setOwn hp with h2 | h2
    · rw [h2]; exact hv
    · exact h p h2

theorem HoldsSocketIds_delete (m : JSObject) (k : String) (h : m.HoldsSocketIds) :
    (m.delete k).HoldsSocketIds := by
  intro p hp
  exact h p (List.mem_of_mem_filter hp)

/-- Every registry reached from the empty one by connections of sockets
with non-empty ids, disconnections and `sendMessage` requests stores only
non-empty socket ids. -/
theorem HoldsSocketIds_runServer (events : List ServerEvent)
    (hids : ∀ e ∈ events, e.HasSocketId) : (runServer JSObject.empty events).HoldsSocketIds := by
  induction events using List.reverseRecOn with
  | nil =>
    intro p hp
    simp [runServer, JSObject.empty] at hp
  | append_singleton events e ih =>
    rw [runServer_concat]
    have ih2 := ih (fun x hx => hids x (List.mem_append_left _ hx))
    have he : e.HasSocketId := hids e (by simp)
    cases e with
    | connection s =>
      simp only [step, onConnection]
      split
      · exact HoldsSocketIds_set _ _ _ ih2 he
      · exact ih2
    | disconnect s => exact HoldsSocketIds_delete _ _ ih2
    | send ext req =>
      simp only [step, sendMessage]
      split <;> exact ih2

/-! ## C11: deregistering twice -/

/-- C11: for every registry state and user id `u`, `delete userSocketMap[u]`
run twice in a row leaves the same registry as running it once, and so does
the disconnect listener of a socket run twice. -/
theorem C11_deregister_idempotent (m : JSObject) (u : String) (s : Socket) :
    applyOps m [.deregister u, .deregister u] = applyOps m [.deregister u] ∧
    (onDisconnect (onDisconnect m s).1 s).1 = (onDisconnect m s).1 := by
  have h : ∀ k, (m.delete k).delete k = m.delete k := fun k =>
    delete_of_not_hasOwn (m.delete k) k (hasOwn_delete_self m k)
  constructor
  · simp only [applyOps, List.foldl_cons, List.foldl_nil, RegistryOp.apply]
    exact h u
  · rw [onDisconnect_eq, onDisconnect_eq]
    exact h _

/-! ## C12: the two-user scenario -/

/-- C12: from the empty registry, A connects with `userId=A1` on socket `a`,
B connects with `userId=B1` on socket `b`, A's message "hi" to B1 is saved and
B disconnects. The two connects emit exactly two `getOnlineUsers` broadcasts
and leave the roster `A1, B1`; the send emits exactly one event, `newMessage`
to B's socket with text "hi"; B's disconnect broadcasts the roster `A1`. -/
theorem C12_two_user_scenario (ext : Collaborators) (a b : String)
    (hb : b ≠ "")
    (hsave : ext.save ⟨"A1", "B1", some "hi", none⟩ = .ok ()) :
    emittedDuring JSObject.empty
        [.connection ⟨a, some "A1"⟩, .connection ⟨b, some "B1"⟩] =
      [.toAll "getOnlineUsers" ["A1"], .toAll "getOnlineUsers" ["A1", "B1"]] ∧
    (runServer JSObject.empty
        [.connection ⟨a, some "A1"⟩, .connection ⟨b, some "B1"⟩]).keys = ["A1", "B1"] ∧
    emittedDuring JSObject.empty
        [.connection ⟨a, some "A1"⟩, .connection ⟨b, some "B1"⟩,
         .send ext ⟨some "hi", none, "B1", "A1"⟩, .disconnect ⟨b, some "B1"⟩] =
      [.toAll "getOnlineUsers" ["A1"], .toAll "getOnlineUsers" ["A1", "B1"],
       .toRoom (.str b) "newMessage" ⟨"A1", "B1", some "hi", none⟩,
       .toAll "getOnlineUsers" ["A1"]] := by
  have hA : truthy (some "A1") = true := by decide
  have hB : truthy (some "B1") = true := by decide
  have hm1 : (onConnection JSObject.empty ⟨a, some "A1"⟩).1 = ⟨[("A1", a)]⟩ := by
    simp only [onConnection, hA, if_true, toPropertyKey]
    rfl
  have hm2 : (onConnection ⟨[("A1", a)]⟩ ⟨b, some "B1"⟩).1 = ⟨[("A1", a), ("B1", b)]⟩ := by
    simp only [onConnection, hB, if_true, toPropertyKey]
    rfl
  have hk1 : JSObject.keys ⟨[("A1", a)]⟩ = ["A1"] := by
    have h1 : isArrayIndex "A1" = false := by decide
    simp [JSObject.keys, JSObject.ownKeys, h1, sortIndexKeys]
  have hk2 : JSObject.keys ⟨[("A1", a), ("B1", b)]⟩ = ["A1", "B1"] := by
    have h1 : isArrayIndex "A1" = false := by decide
    have h2 : isArrayIndex "B1" = false := by decide
    simp [JSObject.keys, JSObject.ownKeys, h1, h2, sortIndexKeys]
  have he1 : (onConnection JSObject.empty ⟨a, some "A1"⟩).2 =
      [.toAll "getOnlineUsers" ["A1"]] := by
    have := hm1
    simp only [onConnection] at this ⊢
    rw [this, hk1]
  have he2 : (onConnection ⟨[("A1", a)]⟩ ⟨b, some "B1"⟩).2 =
      [.toAll "getOnlineUsers" ["A1", "B1"]] := by
    have := hm2
    simp only [onConnection] at this ⊢
    rw [this, hk2]
  have hpersist : persist ext ⟨some "hi", none, "B1", "A1"⟩ =
      .ok ⟨"A1", "B1", some "hi", none⟩ := by
    simp [persist, uploadImage, hsave]
  have hsend : (sendMessage ext ⟨[("A1", a), ("B1", b)]⟩ ⟨some "hi", none, "B1", "A1"⟩) =
      { userSocketMap := ⟨[("A1", a), ("B1", b)]⟩,
        emitted := [.toRoom (.str b) "newMessage" ⟨"A1", "B1", some "hi", none⟩],
        response := { status := 201, body := .message ⟨"A1", "B1", some "hi", none⟩ } } := by
    rw [sendMessage_of_persisted _ hpersist]
    have hget : getReceiverSocketId ⟨[("A1", a), ("B1", b)]⟩ "B1" = .str b := by
      have h1 : ¬ ("A1" = "B1") := by decide
      simp [getReceiverSocketId, JSObject.get, lookupOwn, h1]
    simp [hget, JSVal.truthy, hb]
  have hdis : onDisconnect ⟨[("A1", a), ("B1", b)]⟩ ⟨b, some "B1"⟩ =
      (⟨[("A1", a)]⟩, [.toAll "getOnlineUsers" ["A1"]]) := by
    have h1 : ("A1" != "B1") = true := by decide
    have hd : JSObject.delete ⟨[("A1", a), ("B1", b)]⟩ "B1" = ⟨[("A1", a)]⟩ := by
      simp [JSObject.delete, List.filter_cons, h1]
    rw [onDisconnect_eq]
    simp only [toPropertyKey, hd, hk1]
  refine ⟨?_, ?_, ?_⟩
  · simp only [emittedDuring, step, he1, hm1, he2, List.append_nil, List.singleton_append]
  · simp only [runServer, List.foldl_cons, List.foldl_nil, step, hm1, hm2, hk2]
  · simp only [emittedDuring, step, he1, hm1, he2, hm2, hsend, hdis, List.append_nil,
      List.singleton_append]

/-- C12, an instance with the socket ids `sA` and `sB` and a store that
accepts every message. -/
theorem C12_two_user_scenario_witness :
    emittedDuring JSObject.empty
        [.connection ⟨"sA", some "A1"⟩, .connection ⟨"sB", some "B1"⟩] =
      [.toAll "getOnlineUsers" ["A1"], .toAll "getOnlineUsers" ["A1", "B1"]] ∧
    (runServer JSObject.empty
        [.connection ⟨"sA", some "A1"⟩, .connection ⟨"sB", some "B1"⟩]).keys = ["A1", "B1"] ∧
    emittedDuring JSObject.empty
        [.connection ⟨"sA", some "A1"⟩, .connection ⟨"sB", some "B1"⟩,
         .send ⟨fun _ => .ok "url", fun _ => .ok ()⟩ ⟨some "hi", none, "B1", "A1"⟩,
         .disconnect ⟨"sB", some "B1"⟩] =
      [.toAll "getOnlineUsers" ["A1"], .toAll "getOnlineUsers" ["A1", "B1"],
       .toRoom (.str "sB") "newMessage" ⟨"A1", "B1", some "hi", none⟩,
       .toAll "getOnlineUsers" ["A1"]] :=
  C12_two_user_scenario ⟨fun _ => .ok "url", fun _ => .ok ()⟩ "sA" "sB" (by decide) rfl

/-! ## C13: two broadcasts per identified connection -/

theorem sendMessage_emits_no_roster (ext : Collaborators) (m : JSObject) (req : Request) :
    (sendMessage ext m req).emitted.countP Emitted.isRoster = 0 := by
  unfold sendMessage
  split
  · simp only
    split <;> simp [Emitted.isRoster]
  · simp

/-- C13: for every socket with a non-empty `userId`, whatever the registry
holds when it connects (`m`) and when it closes (`m2`): its connection handler
emits exactly one event, a `getOnlineUsers` broadcast of the roster right
after the registration statement, its disconnect listener exactly one, a
`getOnlineUsers` broadcast of the roster right after the `delete`, so that two
broadcasts are emitted over its lifecycle; `sendMessage`, lookup included,
emits no `getOnlineUsers` event. -/
theorem C13_two_broadcasts_per_lifecycle (m m2 : JSObject) (s : Socket) (u : String)
    (h : s.userId = some u) (hu : u ≠ "") :
    (onConnection m s).2 = [Emitted.toAll "getOnlineUsers" (m.set u s.id).keys] ∧
    (onDisconnect m2 s).2 = [Emitted.toAll "getOnlineUsers" (m2.delete u).keys] ∧
    ((onConnection m s).2 ++ (onDisconnect m2 s).2).countP Emitted.isRoster = 2 ∧
    ((onConnection m s).2 ++ (onDisconnect m2 s).2).length = 2 ∧
    ∀ (ext : Collaborators) (m3 : JSObject) (req : Request),
      (sendMessage ext m3 req).emitted.countP Emitted.isRoster = 0 := by
  have hc : (onConnection m s).2 = [Emitted.toAll "getOnlineUsers" (m.set u s.id).keys] := by
    rw [onConnection_identified m s u h hu]
  have hd : (onDisconnect m2 s).2 = [Emitted.toAll "getOnlineUsers" (m2.delete u).keys] := by
    rw [onDisconnect_eq, h]
    rfl
  refine ⟨hc, hd, ?_, ?_, sendMessage_emits_no_roster⟩
  · rw [hc, hd]
    simp [Emitted.isRoster]
  · rw [hc, hd]
    rfl

/-- C13, an instance: `u2` connects while `u1` is online and closes after
`u1` has left. -/
theorem C13_two_broadcasts_per_lifecycle_witness :
    (onConnection ⟨[("u1", "c1")]⟩ ⟨"c2", some "u2"⟩).2 =
      [Emitted.toAll "getOnlineUsers" (JSObject.set ⟨[("u1", "c1")]⟩ "u2" "c2").keys] ∧
    (onDisconnect ⟨[("u2", "c2")]⟩ ⟨"c2", some "u2"⟩).2 =
      [Emitted.toAll "getOnlineUsers" (JSObject.delete ⟨[("u2", "c2")]⟩ "u2").keys] ∧
    ((onConnection ⟨[("u1", "c1")]⟩ ⟨"c2", some "u2"⟩).2 ++
      (onDisconnect ⟨[("u2", "c2")]⟩ ⟨"c2", some "u2"⟩).2).countP Emitted.isRoster = 2 ∧
    ((onConnection ⟨[("u1", "c1")]⟩ ⟨"c2", some "u2"⟩).2 ++
      (onDisconnect ⟨[("u2", "c2")]⟩ ⟨"c2", some "u2"⟩).2).length = 2 ∧
    ∀ (ext : Collaborators) (m3 : JSObject) (req : Request),
      (sendMessage ext m3 req).emitted.countP Emitted.isRoster = 0 :=
  C13_two_broadcasts_per_lifecycle ⟨[("u1", "c1")]⟩ ⟨[("u2", "c2")]⟩ ⟨"c2", some "u2"⟩ "u2"
    rfl (by decide)

/-! ## C14: the sender cannot tell delivery from non-delivery -/

/-- C14: for every request whose message `msg` was persisted, the HTTP
response is 201 with `msg` as body whatever the registry holds, hence
identical in any two runs that differ only in the registry. -/
theorem C14_response_independent_of_registry (ext : Collaborators) (req : Request)
    (msg : Message) (m1 m2 : JSObject) (hsaved : persist ext req = .ok msg) :
    (sendMessage ext m1 req).response = { status := 201, body := .message msg } ∧
    (sendMessage ext m1 req).response = (sendMessage ext m2 req).response := by
  rw [sendMessage_of_persisted m1 hsaved, sendMessage_of_persisted m2 hsaved]
  exact ⟨rfl, rfl⟩

/-- C14, an instance: the same request with the receiver registered and
with the receiver absent. -/
theorem C14_response_independent_of_registry_witness :
    (sendMessage ⟨fun _ => .ok "url", fun _ => .ok ()⟩ ⟨[("B1", "s2")]⟩
        ⟨some "hi", none, "B1", "A1"⟩).response =
      { status := 201, body := .message ⟨"A1", "B1", some "hi", none⟩ } ∧
    (sendMessage ⟨fun _ => .ok "url", fun _ => .ok ()⟩ ⟨[("B1", "s2")]⟩
        ⟨some "hi", none, "B1", "A1"⟩).response =
      (sendMessage ⟨fun _ => .ok "url", fun _ => .ok ()⟩ JSObject.empty
        ⟨some "hi", none, "B1", "A1"⟩).response :=
  C14_response_independent_of_registry ⟨fun _ => .ok "url", fun _ => .ok ()⟩
    ⟨some "hi", none, "B1", "A1"⟩ ⟨"A1", "B1", some "hi", none⟩ ⟨[("B1", "s2")]⟩
    JSObject.empty rfl

/-! ## C16: lookups and deliveries only read the registry -/

theorem sendMessage_registry (ext : Collaborators) (m : JSObject) (req : Request) :
    (sendMessage ext m req).userSocketMap = m := by
  unfold sendMessage
  split <;> rfl

/-- C16: for every registry state, request and outcome of the external
calls, the registry after `sendMessage` (which includes its call of
`getReceiverSocketId`) is the registry before it, so `Object.keys` and every
lookup are unchanged, whether or not the receiver is registered; and removing
all `sendMessage` requests from a run of the server does not change the
registry it ends in. -/
theorem C16_lookup_and_delivery_read_only (ext : Collaborators) (m : JSObject) (req : Request)
    (events : List ServerEvent) :
    (sendMessage ext m req).userSocketMap = m ∧
    (sendMessage ext m req).userSocketMap.keys = m.keys ∧
    (∀ k, getReceiverSocketId (sendMessage ext m req).userSocketMap k =
      getReceiverSocketId m k) ∧
    (step m (.send ext req)).1 = m ∧
    runServer m (events ++ [.send ext req]) = runServer m events := by
  have h := sendMessage_registry ext m req
  refine ⟨h, ?_, ?_, h, ?_⟩
  · rw [h]
  · intro k; rw [h]
  · rw [runServer_concat]
    exact sendMessage_registry ext _ req

/-! ## C20: other users are not affected -/

/-- C20: for all distinct user ids `u` and `v`, neither the connection
handler nor the disconnect listener of a socket with `userId` `u` changes what
`getReceiverSocketId(v)` returns or whether `Object.keys(userSocketMap)` lists
`v`. -/
theorem C20_other_users_unchanged (m : JSObject) (s : Socket) (u v : String)
    (h : s.userId = some u) (hne : v ≠ u) :
    getReceiverSocketId (onConnection m s).1 v = getReceiverSocketId m v ∧
    (v ∈ (onConnection m s).1.keys ↔ v ∈ m.keys) ∧
    getReceiverSocketId (onDisconnect m s).1 v = getReceiverSocketId m v ∧
    (v ∈ (onDisconnect m s).1.keys ↔ v ∈ m.keys) := by
  refine ⟨?_, ?_, ?_, ?_⟩
  · unfold onConnection
    simp only [h, toPropertyKey]
    split
    · exact get_set_ne m s.id hne
    · rfl
  · unfold onConnection
    simp only [h, toPropertyKey]
    split
    · rw [mem_keys_iff, mem_keys_iff]
      exact mem_ownKeys_set_ne m s.id hne
    · rfl
  · rw [onDisconnect_eq, h]
    exact get_delete_ne m hne
  · rw [onDisconnect_eq, h, mem_keys_iff, mem_keys_iff]
    simp only [toPropertyKey, mem_ownKeys_delete]
    exact ⟨fun hh => hh.1, fun hh => ⟨hh, hne⟩⟩

/-- C20, an instance: `u2` connects and disconnects while `u1` is
registered under `c1`. -/
theorem C20_other_users_unchanged_witness :
    getReceiverSocketId (onConnection ⟨[("u1", "c1")]⟩ ⟨"c2", some "u2"⟩).1 "u1" =
      getReceiverSocketId ⟨[("u1", "c1")]⟩ "u1" ∧
    ("u1" ∈ (onConnection ⟨[("u1", "c1")]⟩ ⟨"c2", some "u2"⟩).1.keys ↔
      "u1" ∈ JSObject.keys ⟨[("u1", "c1")]⟩) ∧
    getReceiverSocketId (onDisconnect ⟨[("u1", "c1")]⟩ ⟨"c2", some "u2"⟩).1 "u1" =
      getReceiverSocketId ⟨[("u1", "c1")]⟩ "u1" ∧
    ("u1" ∈ (onDisconnect ⟨[("u1", "c1")]⟩ ⟨"c2", some "u2"⟩).1.keys ↔
      "u1" ∈ JSObject.keys ⟨[("u1", "c1")]⟩) :=
  C20_other_users_unchanged ⟨[("u1", "c1")]⟩ ⟨"c2", some "u2"⟩ "u2" "u1" rfl (by decide)

/-! ## C15: counting registers and deregisters -/

theorem hasOwn_set_self (m : JSObject) {k : String} (v : String) (hk : k ≠ "__proto__") :
    (m.set k v).hasOwn k = true :=
  (hasOwn_iff _ k).mpr ((mem_ownKeys_set m v hk k).mpr (Or.inl rfl))

theorem hasOwn_set_ne (m : JSObject) {k j : String} (v : String) (hne : j ≠ k) :
    (m.set k v).hasOwn j = m.hasOwn j := by
  rw [Bool.eq_iff_iff, hasOwn_iff, hasOwn_iff]
  exact mem_ownKeys_set_ne m v hne

theorem hasOwn_delete_ne (m : JSObject) {k j : String} (hne : j ≠ k) :
    (m.delete k).hasOwn j = m.hasOwn j := by
  rw [Bool.eq_iff_iff, hasOwn_iff, hasOwn_iff, mem_ownKeys_delete]
  exact ⟨fun h => h.1, fun h => ⟨h, hne⟩⟩

/-- Bookkeeping along an alternating sequence: the registers of `u`, plus
one if `u` was registered at the start, equal the deregisters of `u`, plus one
if `u` is registered at the end. -/
theorem alternating_balance (u : String) (hp : u ≠ "__proto__") (ops : List RegistryOp) :
    ∀ m : JSObject, alternatesFor u (!m.hasOwn u) ops = true →
      registerCount u ops + (if m.hasOwn u = true then 1 else 0) =
        deregisterCount u ops + (if (applyOps m ops).hasOwn u = true then 1 else 0) := by
  induction ops with
  | nil =>
    intro m _
    simp [registerCount, deregisterCount, applyOps]
  | cons op rest ih =>
    intro m halt
    have hstep : applyOps m (op :: rest) = applyOps (RegistryOp.apply m op) rest := rfl
    rw [hstep]
    cases op with
    | register k v =>
      simp only [RegistryOp.apply]
      by_cases hk : k = u
      · subst hk
        simp only [alternatesFor, if_true, Bool.and_eq_true, Bool.not_eq_true'] at halt
        have hnew : (m.set k v).hasOwn k = true := hasOwn_set_self m v hp
        have h2 := ih (m.set k v) (by rw [hnew]; exact halt.2)
        rw [hnew] at h2
        simp only [registerCount, deregisterCount, if_true, halt.1, Bool.false_eq_true,
          if_false] at h2 ⊢
        omega
      · have hne : u ≠ k := fun e => hk e.symm
        simp only [alternatesFor, hk, if_false] at halt
        have hsame : (m.set k v).hasOwn u = m.hasOwn u := hasOwn_set_ne m v hne
        have h2 := ih (m.set k v) (by rw [hsame]; exact halt)
        rw [hsame] at h2
        simp only [registerCount, deregisterCount, hk, if_false, Nat.zero_add]
        exact h2
    | deregister k =>
      simp only [RegistryOp.apply]
      by_cases hk : k = u
      · subst hk
        simp only [alternatesFor, if_true, Bool.and_eq_true, Bool.not_eq_true',
          Bool.not_eq_false'] at halt
        have hnew : (m.delete k).hasOwn k = false := hasOwn_delete_self m k
        have h2 := ih (m.delete k) (by rw [hnew]; exact halt.2)
        rw [hnew] at h2
        have h0 : m.hasOwn k = true := by simpa using halt.1
        simp only [registerCount, deregisterCount, if_true, h0] at h2 ⊢
        simp only [Bool.false_eq_true, if_false] at h2
        omega
      · have hne : u ≠ k := fun e => hk e.symm
        simp only [alternatesFor, hk, if_false] at halt
        have hsame : (m.delete k).hasOwn u = m.hasOwn u := hasOwn_delete_ne m hne
        have h2 := ih (m.delete k) (by rw [hsame]; exact halt)
        rw [hsame] at h2
        simp only [registerCount, deregisterCount, hk, if_false, Nat.zero_add]
        exact h2

/-- C15 (as amended): starting from the empty registry, for every sequence
of `register` and `deregister` statements in which those for a user id `u`
other than `__proto__` strictly alternate, beginning with a `register`, `u` is
listed by `Object.keys(userSocketMap)` exactly when the number of registers of
`u` minus the number of deregisters of `u` is odd. -/
theorem C15_alternating_parity (ops : List RegistryOp) (u : String) (hp : u ≠ "__proto__")
    (halt : alternatesFor u true ops = true) :
    u ∈ (applyOps JSObject.empty ops).keys ↔
      Odd ((registerCount u ops : Int) - (deregisterCount u ops : Int)) := by
  have h0 : JSObject.empty.hasOwn u = false := rfl
  have hb := alternating_balance u hp ops JSObject.empty (by rw [h0]; exact halt)
  rw [h0] at hb
  simp only [Bool.false_eq_true, if_false, Nat.add_zero] at hb
  rw [← hasOwn_iff_keys]
  by_cases hfin : (applyOps JSObject.empty ops).hasOwn u = true
  · simp only [hfin, if_true] at hb
    have : ((registerCount u ops : Int) - (deregisterCount u ops : Int)) = 1 := by omega
    rw [this]
    simp [hfin]
  · simp only [hfin, Bool.false_eq_true, if_false, Nat.add_zero] at hb
    have : ((registerCount u ops : Int) - (deregisterCount u ops : Int)) = 0 := by omega
    rw [this]
    simp [hfin]

/-- C15, an instance: `u1` registers, deregisters and registers again while
`u2` registers in between. -/
theorem C15_alternating_parity_witness :
    "u1" ∈ (applyOps JSObject.empty
        [.register "u1" "c1", .register "u2" "c2", .deregister "u1",
         .register "u1" "c3"]).keys ↔
      Odd ((registerCount "u1"
          [.register "u1" "c1", .register "u2" "c2", .deregister "u1",
           .register "u1" "c3"] : Int) -
        (deregisterCount "u1"
          [.register "u1" "c1", .register "u2" "c2", .deregister "u1",
           .register "u1" "c3"] : Int)) :=
  C15_alternating_parity _ "u1" (by decide) (by decide)

/-- C15 as stated fails: after two registers of `u1` and no deregister the
difference of the counts is 2, which is even, yet `u1` is listed; and the
sequences "register, deregister" and "deregister, register" have the same
counts but end with `u1` absent and present respectively, so the order
matters. -/
theorem C15_counterexample :
    ("u1" ∈ (applyOps JSObject.empty [.register "u1" "c1", .register "u1" "c2"]).keys ∧
      ¬ Odd ((registerCount "u1" [.register "u1" "c1", .register "u1" "c2"] : Int) -
        (deregisterCount "u1" [.register "u1" "c1", .register "u1" "c2"] : Int))) ∧
    ("u1" ∉ (applyOps JSObject.empty [.register "u1" "c1", .deregister "u1"]).keys ∧
      "u1" ∈ (applyOps JSObject.empty [.deregister "u1", .register "u1" "c1"]).keys) := by
  decide

/-! ## C18: registry entries point at live connections -/

theorem connections_append (a b : List ServerEvent) :
    connections (a ++ b) = connections a ++ connections b := by
  induction a with
  | nil => rfl
  | cons e t ih => cases e <;> simp [connections, ih]

theorem disconnections_append (a b : List ServerEvent) :
    disconnections (a ++ b) = disconnections a ++ disconnections b := by
  induction a with
  | nil => rfl
  | cons e t ih => cases e <;> simp [disconnections, ih]

theorem connections_reverse (l : List ServerEvent) :
    connections l.reverse = (connections l).reverse := by
  induction l with
  | nil => rfl
  | cons e t ih =>
    rw [List.reverse_cons, connections_append, ih]
    cases e <;> simp [connections]

theorem disconnections_reverse (l : List ServerEvent) :
    disconnections l.reverse = (disconnections l).reverse := by
  induction l with
  | nil => rfl
  | cons e t ih =>
    rw [List.reverse_cons, disconnections_append, ih]
    cases e <;> simp [disconnections]

theorem valid_snoc_connection (h : List ServerEvent) (s : Socket) :
    validHistory (h ++ [.connection s]) = true ↔
      s.id ∉ (connections h).map Socket.id ∧ validHistory h = true := by
  unfold validHistory
  rw [List.reverse_append]
  simp [validNewestFirst, connections_reverse]

theorem valid_snoc_disconnect (h : List ServerEvent) (s : Socket) :
    validHistory (h ++ [.disconnect s]) = true ↔
      s ∈ connections h ∧ s ∉ disconnections h ∧ validHistory h = true := by
  unfold validHistory
  rw [List.reverse_append]
  simp [validNewestFirst, connections_reverse, disconnections_reverse, and_assoc]

theorem valid_snoc_send (h : List ServerEvent) (ext : Collaborators) (req : Request) :
    validHistory (h ++ [.send ext req]) = validHistory h := by
  unfold validHistory
  rw [List.reverse_append]
  simp [validNewestFirst]

/-- In a valid history only connected sockets have disconnected. -/
theorem disconnections_subset (events : List ServerEvent) (hv : validHistory events = true) :
    ∀ s ∈ disconnections events, s ∈ connections events := by
  induction events using List.reverseRecOn with
  | nil => intro s hs; simp [disconnections] at hs
  | append_singleton h e ih =>
    intro s hs
    cases e with
    | connection s1 =>
      have hv2 := (valid_snoc_connection h s1).mp hv
      rw [disconnections_append] at hs
      rw [connections_append]
      simp only [disconnections, List.append_nil] at hs
      exact List.mem_append_left _ (ih hv2.2 s hs)
    | disconnect s1 =>
      have hv2 := (valid_snoc_disconnect h s1).mp hv
      rw [disconnections_append] at hs
      rw [connections_append]
      simp only [disconnections, List.mem_append, List.mem_singleton] at hs
      simp only [connections, List.append_nil]
      rcases hs with hs | hs
      · exact ih hv2.2.2 s hs
      · rw [hs]; exact hv2.1
    | send ext req =>
      have hv2 : validHistory h = true := by rw [← valid_snoc_send h ext req]; exact hv
      rw [disconnections_append] at hs
      rw [connections_append]
      simp only [disconnections, List.append_nil] at hs
      exact List.mem_append_left _ (ih hv2 s hs)

/-- In a valid history no two connections share a socket id. -/
theorem connection_ids_nodup (events : List ServerEvent) (hv : validHistory events = true) :
    ((connections events).map Socket.id).Nodup := by
  induction events using List.reverseRecOn with
  | nil => simp [connections]
  | append_singleton h e ih =>
    cases e with
    | connection s1 =>
      have hv2 := (valid_snoc_connection h s1).mp hv
      rw [connections_append]
      simp only [connections, List.map_append, List.map_cons, List.map_nil]
      rw [List.nodup_append]
      refine ⟨ih hv2.2, List.nodup_singleton _, ?_⟩
      intro a ha hb
      rw [List.mem_singleton] at hb
      subst hb
      exact hv2.1 ha
    | disconnect s1 =>
      have hv2 := (valid_snoc_disconnect h s1).mp hv
      rw [connections_append]
      simp only [connections, List.append_nil]
      exact ih hv2.2.2
    | send ext req =>
      have hv2 : validHistory h = true := by rw [← valid_snoc_send h ext req]; exact hv
      rw [connections_append]
      simp only [connections, List.append_nil]
      exact ih hv2

/-- Every entry of the registry reached by a valid history belongs to a
socket that connected with that user id and has not disconnected. -/
theorem entries_are_live (events : List ServerEvent) (hv : validHistory events = true) :
    ∀ u c, lookupOwn u (runServer JSObject.empty events).props = some c →
      ∃ s, s ∈ connections events ∧ s ∉ disconnections events ∧ s.id = c ∧
        s.userId = some u := by
  induction events using List.reverseRecOn with
  | nil =>
    intro u c hl
    simp [runServer, JSObject.empty, lookupOwn] at hl
  | append_singleton h e ih =>
    intro u c hl
    rw [runServer_concat] at hl
    rw [connections_append, disconnections_append]
    cases e with
    | connection s1 =>
      have hv2 := (valid_snoc_connection h s1).mp hv
      have hold : ∀ u c, lookupOwn u (runServer JSObject.empty h).props = some c →
          ∃ s, s ∈ connections h ++ connections [ServerEvent.connection s1] ∧
            s ∉ disconnections h ++ disconnections [ServerEvent.connection s1] ∧
            s.id = c ∧ s.userId = some u := by
        intro u c hl2
        obtain ⟨s, h1, h2, h3, h4⟩ := ih hv2.2 u c hl2
        refine ⟨s, List.mem_append_left _ h1, ?_, h3, h4⟩
        simpa [disconnections] using h2
      have hfresh : s1 ∉ disconnections h := by
        intro hd
        exact hv2.1 (List.mem_map_of_mem Socket.id (disconnections_subset h hv2.2 s1 hd))
      simp only [step, onConnection] at hl
      split at hl
      · rename_i ht
        cases hs : s1.userId with
        | none => simp [hs, truthy] at ht
        | some u1 =>
          simp only [hs, toPropertyKey] at hl
          unfold JSObject.set at hl
          split at hl
          · exact hold u c hl
          · by_cases hu : u = u1
            · subst hu
              simp only [lookupOwn_setOwn_self, Option.some.injEq] at hl
              refine ⟨s1, ?_, ?_, hl, hs⟩
              · simp [connections]
              · simpa [disconnections] using hfresh
            · rw [lookupOwn_setOwn_ne _ _ hu] at hl
              exact hold u c hl
      · exact hold u c hl
    | disconnect s1 =>
      have hv2 := (valid_snoc_disconnect h s1).mp hv
      simp only [step, onDisconnect, JSObject.delete] at hl
      have hne : u ≠ toPropertyKey s1.userId := by
        intro e
        rw [e, lookupOwn_filter_self] at hl
        exact Option.noConfusion hl
      rw [lookupOwn_filter_ne _ hne] at hl
      obtain ⟨s, h1, h2, h3, h4⟩ := ih hv2.2.2 u c hl
      refine ⟨s, List.mem_append_left _ h1, ?_, h3, h4⟩
      have hss : s ≠ s1 := by
        intro e
        apply hne
        rw [← e, h4]
        rfl
      simp [disconnections, h2, hss]
    | send ext req =>
      have hv2 : validHistory h = true := by rw [← valid_snoc_send h ext req]; exact hv
      have hreg : (step (runServer JSObject.empty h) (.send ext req)).1 =
          runServer JSObject.empty h := sendMessage_registry ext _ req
      rw [hreg] at hl
      obtain ⟨s, h1, h2, h3, h4⟩ := ih hv2 u c hl
      refine ⟨s, List.mem_append_left _ h1, ?_, h3, h4⟩
      simpa [disconnections] using h2

/-- C18: in every state reached from the empty registry by a valid history
(socket ids unique, each socket disconnecting at most once and after its own
connection), every registry entry `u -> c` belongs to a socket with id `c`
that connected with `userId` `u` and has not disconnected; hence no
`newMessage` emitted by `sendMessage` in that state is addressed to the room
of a socket whose disconnect listener has run. -/
theorem C18_entries_refer_to_live_connections (events : List ServerEvent)
    (hv : validHistory events = true) :
    (∀ u c, lookupOwn u (runServer JSObject.empty events).props = some c →
      ∃ s, s ∈ connections events ∧ s ∉ disconnections events ∧ s.id = c ∧
        s.userId = some u) ∧
    (∀ (ext : Collaborators) (req : Request) (room : JSVal) (event : String)
        (payload : Message),
      Emitted.toRoom room event payload ∈
          (sendMessage ext (runServer JSObject.empty events) req).emitted →
        ∀ s ∈ disconnections events, room ≠ .str s.id) := by
  refine ⟨entries_are_live events hv, ?_⟩
  intro ext req room event payload hmem s hs hroom
  unfold sendMessage at hmem
  split at hmem
  · simp only at hmem
    split at hmem
    · simp only [List.mem_singleton, Emitted.toRoom.injEq] at hmem
      have hget : getReceiverSocketId (runServer JSObject.empty events) req.id = .str s.id := by
        rw [← hmem.1]; exact hroom
      have hown := ((getReceiverSocketId_cases _ req.id).1 s.id).mp hget
      obtain ⟨s0, h1, h2, h3, -⟩ := entries_are_live events hv req.id s.id hown
      have hsc := disconnections_subset events hv s hs
      have heq : s0 = s :=
        List.inj_on_of_nodup_map (connection_ids_nodup events hv) h1 hsc h3
      rw [heq] at h2
      exact h2 hs
    · simp at hmem
  · simp at hmem

/-- C18, an instance: `u1` connects on `c1` and again on `c2`, then socket
`c1` closes and `u2` connects. -/
theorem C18_entries_refer_to_live_connections_witness :
    (∀ u c, lookupOwn u (runServer JSObject.empty
        [.connection ⟨"c1", some "u1"⟩, .connection ⟨"c2", some "u1"⟩,
         .disconnect ⟨"c1", some "u1"⟩, .connection ⟨"c3", some "u2"⟩]).props = some c →
      ∃ s, s ∈ connections
          [.connection ⟨"c1", some "u1"⟩, .connection ⟨"c2", some "u1"⟩,
           .disconnect ⟨"c1", some "u1"⟩, .connection ⟨"c3", some "u2"⟩] ∧
        s ∉ disconnections
          [.connection ⟨"c1", some "u1"⟩, .connection ⟨"c2", some "u1"⟩,
           .disconnect ⟨"c1", some "u1"⟩, .connection ⟨"c3", some "u2"⟩] ∧
        s.id = c ∧ s.userId = some u) ∧
    (∀ (ext : Collaborators) (req : Request) (room : JSVal) (event : String)
        (payload : Message),
      Emitted.toRoom room event payload ∈
          (sendMessage ext (runServer JSObject.empty
            [.connection ⟨"c1", some "u1"⟩, .connection ⟨"c2", some "u1"⟩,
             .disconnect ⟨"c1", some "u1"⟩, .connection ⟨"c3", some "u2"⟩]) req).emitted →
        ∀ s ∈ disconnections
            [.connection ⟨"c1", some "u1"⟩, .connection ⟨"c2", some "u1"⟩,
             .disconnect ⟨"c1", some "u1"⟩, .connection ⟨"c3", some "u2"⟩],
          room ≠ .str s.id) :=
  C18_entries_refer_to_live_connections
    [.connection ⟨"c1", some "u1"⟩, .connection ⟨"c2", some "u1"⟩,
     .disconnect ⟨"c1", some "u1"⟩, .connection ⟨"c3", some "u2"⟩] (by decide)

/-! ## C17: `protectRoute` and tokens that fail verification -/

/-- Whenever the cookie holds a non-empty token and `jwt.verify` throws, the
`catch` block answers 500 and `next()` is not called. -/
theorem protectRoute_of_verify_throws (ext : AuthCollaborators) (token e : String)
    (htoken : token ≠ "") (hverify : ext.verify token = .error e) :
    protectRoute ext (some token) =
      { response := some { status := 500, message := "Internal server error" },
        user := none, nextCalled := false } := by
  simp [protectRoute, truthy, htoken, hverify]

/-- C17 fails on the code: for a request whose `jwt` cookie is present and
whose token `jwt.verify` rejects by throwing, `protectRoute` does not call
`next()`, but it answers 500 "Internal server error", not 401. -/
theorem C17_failed_verification_answers_500 :
    protectRoute ⟨fun _ => .error "jwt malformed", fun _ => .ok (some ⟨"u1"⟩)⟩
        (some "not-a-token") =
      { response := some { status := 500, message := "Internal server error" },
        user := none, nextCalled := false } ∧
    (protectRoute ⟨fun _ => .error "jwt malformed", fun _ => .ok (some ⟨"u1"⟩)⟩
        (some "not-a-token")).response ≠
      some { status := 401, message := "Unauthorized - Invalid Token" } := by
  decide

/-! ## C19: the lookup and the roster -/

theorem truthy_str_of_holdsSocketIds {m : JSObject} {u c : String} (hids : m.HoldsSocketIds)
    (h : lookupOwn u m.props = some c) : (JSVal.str c).truthy = true := by
  have hne : c ≠ "" := hids _ (lookupOwn_mem h)
  simp [JSVal.truthy, hne]

/-- The lookup against the roster away from `Object.prototype`: in every
registry state holding socket ids and for every user id `u` that is not the name of an `Object.prototype` member,
`getReceiverSocketId(u)` returns a truthy value if and only if `u` is among
`Object.keys(userSocketMap)`, and that value is then the stored socket id; so
for a persisted message to such a receiver `sendMessage` emits an event
exactly when the roster lists the receiver. -/
theorem lookup_agrees_with_roster (m : JSObject) (u : String) (hids : m.HoldsSocketIds)
    (hu : u ∉ objectPrototypeNames) :
    ((getReceiverSocketId m u).truthy = true ↔ u ∈ m.keys) ∧
    ((∃ c, getReceiverSocketId m u = .str c) ↔ u ∈ m.keys) ∧
    (∀ (ext : Collaborators) (req : Request) (msg : Message),
      persist ext req = .ok msg → msg.receiverId = u →
        ((sendMessage ext m req).emitted ≠ [] ↔ u ∈ m.keys)) := by
  have hkey : u ∈ m.keys ↔ ∃ c, lookupOwn u m.props = some c := by
    rw [← hasOwn_iff_keys]
    unfold JSObject.hasOwn
    cases lookupOwn u m.props <;> simp
  have htruthy : (getReceiverSocketId m u).truthy = true ↔ u ∈ m.keys := by
    rw [hkey]
    unfold getReceiverSocketId JSObject.get
    cases h : lookupOwn u m.props with
    | some c => simp [truthy_str_of_holdsSocketIds hids h]
    | none => simp [hu, JSVal.truthy]
  refine ⟨htruthy, ?_, ?_⟩
  · rw [hkey]
    constructor
    · rintro ⟨c, hc⟩
      exact ⟨c, ((getReceiverSocketId_cases m u).1 c).mp hc⟩
    · rintro ⟨c, hc⟩
      exact ⟨c, ((getReceiverSocketId_cases m u).1 c).mpr hc⟩
  · intro ext req msg hsaved hrid
    rw [sendMessage_of_persisted m hsaved, hrid, ← htruthy]
    by_cases ht : (getReceiverSocketId m u).truthy = true
    · simp [ht]
    · simp [ht]

/-- An instance: with only `u1` registered, the lookups of `u1` and of
`u2` agree with the roster. -/
theorem lookup_agrees_with_roster_instance :
    (((getReceiverSocketId ⟨[("u1", "c1")]⟩ "u1").truthy = true ↔
        "u1" ∈ JSObject.keys ⟨[("u1", "c1")]⟩) ∧
      ((∃ c, getReceiverSocketId ⟨[("u1", "c1")]⟩ "u1" = .str c) ↔
        "u1" ∈ JSObject.keys ⟨[("u1", "c1")]⟩) ∧
      (∀ (ext : Collaborators) (req : Request) (msg : Message),
        persist ext req = .ok msg → msg.receiverId = "u1" →
          ((sendMessage ext ⟨[("u1", "c1")]⟩ req).emitted ≠ [] ↔
            "u1" ∈ JSObject.keys ⟨[("u1", "c1")]⟩))) ∧
    (getReceiverSocketId ⟨[("u1", "c1")]⟩ "u1").truthy = true ∧
    (getReceiverSocketId ⟨[("u1", "c1")]⟩ "u2").truthy = false :=
  ⟨lookup_agrees_with_roster ⟨[("u1", "c1")]⟩ "u1" (by decide) (by decide),
   by decide, by decide⟩

/-- C19 fails on the code for a user id that names an `Object.prototype`
member: in the empty registry `getReceiverSocketId("constructor")` returns the
inherited function, which is truthy, although `Object.keys(userSocketMap)` is
empty. -/
theorem C19_lookup_truthy_outside_roster :
    getReceiverSocketId JSObject.empty "constructor" = .inherited "constructor" ∧
    (getReceiverSocketId JSObject.empty "constructor").truthy = true ∧
    "constructor" ∉ JSObject.empty.keys := by
  decide

end CoreChat
